import Mathlib

/-!
Verification development for the booyah chip (task-node) runtime.

The definitions below are shallow embeddings of the TypeScript source in
`src/chip.ts` (concatenated in `src/src/event.ts` of the review bundle):
the `Signal` / `ChipContext` data model, the `ChipBase` lifecycle engine,
and an operational small-step interpreter for the `Composite` variants
(`Parallel`, `Sequence`, `StateMachine`, `Alternative`, `Queue`) together
with the leaf chips (`Forever`, `Transitory`, `Wait`, `Lambda`, `Block`).

JavaScript objects are modelled as association lists, the object heap (where
aliasing or mutation matters) as an explicit store, closures are
defunctionalised, and re-entrant method calls are executed with explicit
fuel so that every definition stays executable.
-/

set_option maxRecDepth 4000
set_option linter.unusedVariables false

namespace Booyah

/-- `ChipState` from the source: `"inactive" | "active" | "paused"`. -/
inductive ChipState where
  | inactive
  | active
  | paused
deriving DecidableEq, Repr

/-- Parameter bag of a `Signal` (`params: map<string,any>`); values are kept
as strings, which is enough for every claim. -/
abbrev Params := List (String × String)

/-- `Signal`: immutable named message.  The constructor defaults the name to
`"default"` when none is given (`if (!_name) this._name = "default"`);
`mkSignal` mirrors the constructor with an optional name. -/
structure Signal where
  name : String
  params : Params := []
deriving DecidableEq, Repr

/-- `new Signal()` — the default signal. -/
def Signal.default : Signal := { name := "default", params := [] }

/-- `new Signal(name?, params?)` with the falsy-name defaulting of the
source constructor (an empty string is falsy in JS, like `undefined`). -/
def mkSignal (name : Option String) (params : Params := []) : Signal :=
  match name with
  | none => { name := "default", params }
  | some n => if n = "" then { name := "default", params } else { name := n, params }

end Booyah

/-! ## Context merging (`processChipContext`, lines 111–124)

JS objects live in a heap; `Object.assign({}, context, alteredContext)`
allocates a fresh object, so the model carries an explicit heap of context
objects addressed by `Nat`.  A context alteration is either a literal
object (given by value) or a pure function `old -> new` (the source treats
factories as pure; their result is freshly allocated). -/

namespace Booyah

/-- A context object: a JS record of string keys. -/
abbrev Obj := List (String × String)

/-- Key lookup in an object: the last binding for a key wins
(we keep objects so that each key occurs once; `lookupObj` takes the
first occurrence like a JS property read on such an object). -/
def lookupObj (o : Obj) (k : String) : Option String :=
  (o.find? (fun kv => kv.1 = k)).map (·.2)

/-- `Object.assign(target, src)` semantics restricted to a fresh target:
every key of `a` keeps its position but is overridden by `b` when present,
and keys only in `b` are appended in order. -/
def objectAssign (a b : Obj) : Obj :=
  (a.map fun kv => (kv.1, (lookupObj b kv.1).getD kv.2)) ++
    b.filter (fun kv => (lookupObj a kv.1).isNone)

/-- A `ChipContextResolvable`: a literal context fragment or a function of
the old context. -/
inductive CtxAlter where
  | lit (o : Obj)
  | fn (f : Obj → Obj)

/-- Heap of context objects; addresses are list indices, allocation appends. -/
structure CtxHeap where
  objs : List Obj
deriving Inhabited

def CtxHeap.get (h : CtxHeap) (a : Nat) : Obj := (h.objs.get? a).getD []

def CtxHeap.alloc (h : CtxHeap) (o : Obj) : CtxHeap × Nat :=
  ({ objs := h.objs ++ [o] }, h.objs.length)

/-- One step of the `processChipContext` loop: skip `undefined`, apply a
function alteration, or `Object.assign({}, context, alteredContext)`
(which allocates a fresh object). -/
def processStep (acc : CtxHeap × Nat) (alt : Option CtxAlter) : CtxHeap × Nat :=
  match alt with
  | none => acc
  | some (.fn f) => acc.1.alloc (f (acc.1.get acc.2))
  | some (.lit o) => acc.1.alloc (objectAssign (acc.1.get acc.2) o)

/-- `processChipContext(chipContext, ...alteredContexts)`: folds the
alterations left to right over the base context, allocating every
intermediate object. -/
def processChipContext (h : CtxHeap) (c : Nat) (alts : List (Option CtxAlter)) :
    CtxHeap × Nat :=
  alts.foldl processStep (h, c)

/-- What a key resolves to after merging literal fragments left to right:
the last fragment containing the key wins, and the base context is the
fallback. -/
def lastWins (base : Obj) (alts : List Obj) (k : String) : Option String :=
  alts.foldl (fun acc o => (lookupObj o k).orElse (fun _ => acc)) (lookupObj base k)

theorem lookupObj_cons (kv : String × String) (o : Obj) (k : String) :
    lookupObj (kv :: o) k = if kv.1 = k then some kv.2 else lookupObj o k := by
  by_cases h : kv.1 = k <;> simp [lookupObj, List.find?, h]

theorem lookupObj_append (a b : Obj) (k : String) :
    lookupObj (a ++ b) k = (lookupObj a k).orElse (fun _ => lookupObj b k) := by
  induction a with
  | nil => simp [lookupObj]
  | cons hd tl ih =>
    by_cases h : hd.1 = k
    · simp [List.cons_append, lookupObj_cons, h]
    · simp [List.cons_append, lookupObj_cons, h, ih]

theorem lookupObj_map_assign (a b : Obj) (k : String) :
    lookupObj (a.map fun kv => (kv.1, (lookupObj b kv.1).getD kv.2)) k
      = (lookupObj a k).map (fun v => (lookupObj b k).getD v) := by
  induction a with
  | nil => simp [lookupObj]
  | cons hd tl ih =>
    by_cases h : hd.1 = k
    · subst h
      simp [List.map_cons, lookupObj_cons]
    · simp [List.map_cons, lookupObj_cons, h, ih]

theorem lookupObj_filter_fresh (a b : Obj) (k : String) :
    lookupObj (b.filter fun kv => (lookupObj a kv.1).isNone) k
      = if (lookupObj a k).isNone then lookupObj b k else none := by
  induction b with
  | nil => simp [lookupObj]
  | cons hd tl ih =>
    by_cases h : hd.1 = k
    · subst h
      by_cases ha : (lookupObj a hd.1).isNone
      · simp [List.filter_cons, ha, lookupObj_cons]
      · simp [List.filter_cons, ha, lookupObj_cons, ih]
    · by_cases ha : (lookupObj a hd.1).isNone
      · simp [List.filter_cons, ha, lookupObj_cons, h, ih]
      · simp [List.filter_cons, ha, lookupObj_cons, h, ih]

/-- Key lookup through `Object.assign({}, a, b)`: `b` wins on collisions,
`a` is the fallback. -/
theorem lookupObj_objectAssign (a b : Obj) (k : String) :
    lookupObj (objectAssign a b) k = (lookupObj b k).orElse (fun _ => lookupObj a k) := by
  unfold objectAssign
  rw [lookupObj_append, lookupObj_map_assign, lookupObj_filter_fresh]
  cases ha : lookupObj a k <;> cases hb : lookupObj b k <;>
    simp [Option.orElse, ha, hb]

theorem alloc_get_new (h : CtxHeap) (o : Obj) :
    (h.alloc o).1.get (h.alloc o).2 = o := by
  simp [CtxHeap.alloc, CtxHeap.get, List.get?_concat_length]

theorem processStep_objs (acc : CtxHeap × Nat) (alt : Option CtxAlter) :
    ∃ ext, (processStep acc alt).1.objs = acc.1.objs ++ ext := by
  match alt with
  | none => exact ⟨[], by simp [processStep]⟩
  | some (.fn f) =>
    exact ⟨[f (acc.1.get acc.2)], by simp [processStep, CtxHeap.alloc]⟩
  | some (.lit o) =>
    exact ⟨[objectAssign (acc.1.get acc.2) o], by simp [processStep, CtxHeap.alloc]⟩

theorem processChipContext_objs (h : CtxHeap) (c : Nat) (alts : List (Option CtxAlter)) :
    ∃ ext, (processChipContext h c alts).1.objs = h.objs ++ ext := by
  induction alts generalizing h c with
  | nil => exact ⟨[], by simp [processChipContext]⟩
  | cons alt alts ih =>
    obtain ⟨e1, he1⟩ := processStep_objs (h, c) alt
    obtain ⟨e2, he2⟩ := ih (processStep (h, c) alt).1 (processStep (h, c) alt).2
    refine ⟨e1 ++ e2, ?_⟩
    simpa [processChipContext, he1, List.append_assoc] using he2

theorem lastWins_cons (base : Obj) (o : Obj) (os : List Obj) (k : String) :
    lastWins base (o :: os) k = lastWins (objectAssign base o) os k := by
  simp [lastWins, lookupObj_objectAssign]

theorem processChipContext_lit_lookup (h : CtxHeap) (c : Nat) (os : List Obj) (k : String) :
    lookupObj
      ((processChipContext h c (os.map fun o => some (.lit o))).1.get
        (processChipContext h c (os.map fun o => some (.lit o))).2) k
      = lastWins (h.get c) os k := by
  induction os generalizing h c with
  | nil => simp [processChipContext, lastWins]
  | cons o os ih =>
    have hstep :
        processChipContext h c ((o :: os).map fun x => some (.lit x))
          = processChipContext (h.alloc (objectAssign (h.get c) o)).1
              (h.alloc (objectAssign (h.get c) o)).2
              (os.map fun x => some (.lit x)) := by
      simp [processChipContext, processStep]
    rw [hstep, ih, alloc_get_new, lastWins_cons]

/-- C7.  `processChipContext` folds its alterations left to right over the
base context; on a key collision a later literal alteration wins
(`lastWins`), and the call never mutates the base context object (or any
already-allocated object): the heap is only extended, so `c` maps every key
to the same value as before the call. -/
theorem C7_processChipContext_merge :
    (∀ (h : CtxHeap) (c : Nat) (alts : List (Option CtxAlter)),
      ∃ ext, (processChipContext h c alts).1.objs = h.objs ++ ext)
    ∧ (∀ (h : CtxHeap) (c : Nat) (alts : List (Option CtxAlter)),
        c < h.objs.length →
        ∀ k, lookupObj ((processChipContext h c alts).1.get c) k
              = lookupObj (h.get c) k)
    ∧ (∀ (h : CtxHeap) (c : Nat) (os : List Obj) (k : String),
        lookupObj
          ((processChipContext h c (os.map fun o => some (.lit o))).1.get
            (processChipContext h c (os.map fun o => some (.lit o))).2) k
          = lastWins (h.get c) os k) := by
  refine ⟨processChipContext_objs, ?_, processChipContext_lit_lookup⟩
  intro h c alts hc k
  obtain ⟨ext, hext⟩ := processChipContext_objs h c alts
  have : (processChipContext h c alts).1.get c = h.get c := by
    simp only [CtxHeap.get, hext]
    rw [List.get?_append hc]
  rw [this]

/-- Witness for C7: one literal alteration overriding a key of the base
context, on a concrete two-object heap. -/
theorem C7_processChipContext_merge_witness :
    lookupObj
      ((processChipContext ⟨[[("a", "1"), ("b", "2")]]⟩ 0
          ([[("a", "3")]].map fun o => some (.lit o))).1.get
        (processChipContext ⟨[[("a", "1"), ("b", "2")]]⟩ 0
          ([[("a", "3")]].map fun o => some (.lit o))).2) "a"
      = lastWins [("a", "1"), ("b", "2")] [[("a", "3")]] "a"
    ∧ (0 : Nat) < 1
    ∧ ∀ k, lookupObj
        ((processChipContext ⟨[[("a", "1"), ("b", "2")]]⟩ 0
            [some (.lit [("a", "3")])]).1.get 0) k
        = lookupObj ((⟨[[("a", "1"), ("b", "2")]]⟩ : CtxHeap).get 0) k := by
  refine ⟨C7_processChipContext_merge.2.2 ⟨[[("a", "1"), ("b", "2")]]⟩ 0 [[("a", "3")]] "a",
    by decide, ?_⟩
  exact C7_processChipContext_merge.2.1 ⟨[[("a", "1"), ("b", "2")]]⟩ 0
    [some (.lit [("a", "3")])] (by decide)

end Booyah

/-! ## Event-listener bookkeeping (`ChipBase._unsubscribe`, lines 433–458)

The source partitions `_eventListeners` with radash's `fork(list, cond)`,
which returns `[itemsWhereCondTrue, itemsWhereCondFalse]`, destructured as
`[listenersToRemove, listenersToKeep]`.  The predicate (per its own
comment) returns `true` when a listener should be KEPT, so the
destructuring is inverted with respect to the comment. -/

namespace Booyah

/-- `IEventListener`: emitter / event / callback identities. -/
structure IEventListener where
  emitter : Nat
  event : String
  cb : Nat
deriving DecidableEq, Repr

/-- radash `fork(list, condition)`: `[fulfilled, rejected]` with the
condition-true items first. -/
def fork (l : List IEventListener) (cond : IEventListener → Bool) :
    List IEventListener × List IEventListener :=
  (l.filter cond, l.filter (fun x => ! cond x))

/-- The predicate passed to `fork` by `_unsubscribe`:
`(!emitter || emitter !== l.emitter) && (!event || event !== l.event) &&
(!cb || cb !== l.cb)` — per the source comment, "true if the listener
should be kept". -/
def unsubscribeKeepCond (emitter : Option Nat) (event : Option String)
    (cb : Option Nat) (l : IEventListener) : Bool :=
  (match emitter with | none => true | some e => e ≠ l.emitter)
    && (match event with | none => true | some ev => ev ≠ l.event)
    && (match cb with | none => true | some c => c ≠ l.cb)

/-- `_unsubscribe(emitter?, event?, cb?)` on a tracked-listener list.
Returns `(listenersToRemove, listenersToKeep)` exactly as the source
destructures radash `fork`; the source then unsubscribes every listener of
the first component and stores the second back into `_eventListeners`. -/
def chipUnsubscribe (listeners : List IEventListener) (emitter : Option Nat)
    (event : Option String) (cb : Option Nat) :
    List IEventListener × List IEventListener :=
  fork listeners (unsubscribeKeepCond emitter event cb)

/-- Whether a listener matches at least one of the provided filters. -/
def matchesSomeFilter (emitter : Option Nat) (event : Option String)
    (cb : Option Nat) (l : IEventListener) : Bool :=
  (match emitter with | none => false | some e => e = l.emitter)
    || (match event with | none => false | some ev => ev = l.event)
    || (match cb with | none => false | some c => c = l.cb)

theorem unsubscribeKeepCond_eq_not_matches (emitter : Option Nat)
    (event : Option String) (cb : Option Nat) (l : IEventListener) :
    unsubscribeKeepCond emitter event cb l
      = ! matchesSomeFilter emitter event cb l := by
  cases emitter <;> cases event <;> cases cb <;>
    simp [unsubscribeKeepCond, matchesSomeFilter, eq_comm, Bool.and_assoc,
      Bool.or_assoc, decide_not]

/-- C10.  What `_unsubscribe` actually does (the claim describes the
inverse, which is what the predicate's own comment announces): because
radash `fork` puts the condition-TRUE items in the FIRST component, the
first component destructured as `listenersToRemove` holds exactly the
listeners that match NONE of the provided filters, and `_eventListeners`
is re-assigned the listeners that match at least one filter.  At the
concrete input below (two filters provided), nothing is unsubscribed and
both listeners are retained, although the first matches the emitter filter
and the second matches the event filter. -/
theorem C10_unsubscribe_inverted :
    (∀ (listeners : List IEventListener) (emitter : Option Nat)
        (event : Option String) (cb : Option Nat),
      chipUnsubscribe listeners emitter event cb
        = (listeners.filter (fun l => ! matchesSomeFilter emitter event cb l),
           listeners.filter (fun l => matchesSomeFilter emitter event cb l)))
    ∧ chipUnsubscribe [⟨1, "x", 10⟩, ⟨2, "y", 20⟩] (some 1) (some "y") none
        = ([], [⟨1, "x", 10⟩, ⟨2, "y", 20⟩]) := by
  constructor
  · intro listeners emitter event cb
    unfold chipUnsubscribe fork
    refine Prod.ext ?_ ?_ <;>
      · apply List.filter_congr
        intro l _
        simp [unsubscribeKeepCond_eq_not_matches]
  · decide

end Booyah

/-! ## Base lifecycle engine (`ChipBase`, lines 263–341)

A direct translation of the `ChipBase` methods with the default (no-op)
hooks — i.e. the `Forever` chip.  `activate` subscribes the chip to the
window `resize` event and emits `activated`; `terminate` stores the output
signal, releases every tracked listener and emits `terminated`.  Emitted
notifications are logged in `events` (nothing subscribes to a standalone
base chip). -/

namespace Booyah

/-- The error conditions of the engine (`util.shortStackError` throws). -/
inductive Err where
  | invalidState (op : String) (st : ChipState)
  | compositeInactive
  | duplicateId
  | noChipProduced
  | cannotFindChip
  | attrNotChip
  | needIdForChildContext
  | unknownState (name : String)
  | unknownSignal (name : String)
  | invalidIndex
  | badAddr
  | outOfFuel
deriving DecidableEq, Repr

/-- `ReloadMemento` restricted to what the base engine reads
(`className`); children/data play no role for a leaf. -/
structure BMemento where
  className : String
deriving DecidableEq, Repr

/-- The `ChipBase` instance fields (lines 251–257), plus an `events` log of
the notifications it emitted. -/
structure ChipBase where
  chipContext : Obj := []
  lastTickInfo : Nat := 0
  inputSignal : Option Signal := none
  reloadMemento : Option BMemento := none
  eventListeners : List String := []
  outputSignal : Option Signal := none
  state : ChipState := .inactive
  events : List String := []
deriving DecidableEq, Repr

/-- The externally callable lifecycle operations of a base chip. -/
inductive BOp where
  | activate (tickInfo : Nat) (ctx : Obj) (inputSignal : Option Signal)
      (memento : Option BMemento)
  | tick (tickInfo : Nat)
  | terminate (outputSignal : Option Signal)
  | pause
  | resume
deriving DecidableEq, Repr

def isTerminateOp : BOp → Bool
  | .terminate _ => true
  | _ => false

/-- One lifecycle call on a base chip with default hooks
(`ChipBase.activate/tick/terminate/pause/resume`, lines 263–341). -/
def bstep (op : BOp) (c : ChipBase) : Except Err ChipBase :=
  match op with
  | .activate tickInfo ctx inputSignal memento =>
    if c.state ≠ .inactive then .error (.invalidState "activate" c.state)
    else
      let c := { c with chipContext := ctx, lastTickInfo := tickInfo,
                        inputSignal := inputSignal, state := .active,
                        outputSignal := none }
      let c := { c with reloadMemento :=
        match memento with
        | some m => if m.className = "Forever" then some m else none
        | none => none }
      -- _onActivate(): no-op
      -- _subscribe(window, "resize", () => this.resize())
      let c := { c with eventListeners := c.eventListeners ++ ["resize"] }
      -- this.resize(): _onResize no-op, emit("resized")
      let c := { c with events := c.events ++ ["resized"] }
      -- emit("activated", inputSignal)
      .ok { c with events := c.events ++ ["activated"] }
  | .tick tickInfo =>
    if c.state = .paused then .ok c
    else if c.state ≠ .active then .error (.invalidState "tick" c.state)
    else .ok { c with lastTickInfo := tickInfo }  -- _onTick(): no-op
  | .terminate outputSignal =>
    if c.state ≠ .active ∧ c.state ≠ .paused then
      .error (.invalidState "terminate" c.state)
    else
      let sig := outputSignal.getD Signal.default
      let c := { c with outputSignal := some sig }
      -- _onTerminate(): no-op
      let c := { c with eventListeners := [] }  -- _unsubscribe()
      let c := { c with state := .inactive }
      .ok { c with events := c.events ++ ["terminated"] }
  | .pause =>
    if c.state ≠ .active then .error (.invalidState "pause" c.state)
    else .ok { c with state := .paused }  -- _onPause(): no-op
  | .resume =>
    if c.state ≠ .paused then .error (.invalidState "resume" c.state)
    else .ok { c with state := .active }  -- _onResume(): no-op

/-- Run a sequence of lifecycle calls, failing fast like the source. -/
def runBOps : ChipBase → List BOp → Except Err ChipBase
  | c, [] => .ok c
  | c, op :: ops =>
    match bstep op c with
    | .error e => .error e
    | .ok c1 => runBOps c1 ops

/-- A freshly constructed chip: inert, `inactive`, no output signal. -/
def initChip : ChipBase := {}

/-- The C6 invariant, parameterised by whether a termination has completed
since the last activation began. -/
def BInv (c : ChipBase) (b : Bool) : Prop :=
  c.outputSignal.isSome ↔ (c.state = .inactive ∧ b = true)

theorem bstep_inv {c : ChipBase} {b : Bool} {op : BOp} {c1 : ChipBase}
    (h : BInv c b) (hs : bstep op c = .ok c1) :
    BInv c1 (b || isTerminateOp op) := by
  cases op with
  | activate t ctx s m =>
    simp only [bstep] at hs
    split at hs
    · cases hs
    · simp only [Except.ok.injEq] at hs
      subst hs
      simp [BInv, isTerminateOp]
  | tick t =>
    simp only [bstep] at hs
    split at hs
    · obtain rfl : c = c1 := by simpa using hs
      simpa [isTerminateOp] using h
    · split at hs
      · cases hs
      · obtain rfl : { c with lastTickInfo := t } = c1 := by simpa using hs
        simpa [BInv, isTerminateOp] using h
  | terminate s =>
    simp only [bstep] at hs
    split at hs
    · cases hs
    · obtain rfl : _ = c1 := by simpa using hs
      simp [BInv, isTerminateOp]
  | pause =>
    simp only [bstep] at hs
    split at hs
    · cases hs
    · rename_i ha
      have ha : c.state = .active := by simpa using ha
      obtain rfl : { c with state := ChipState.paused } = c1 := by simpa using hs
      unfold BInv at h ⊢
      simp only [isTerminateOp, Bool.or_false]
      constructor
      · intro hout
        rcases h.1 hout with ⟨hstate, -⟩
        rw [ha] at hstate; cases hstate
      · rintro ⟨hstate, -⟩; cases hstate
  | resume =>
    simp only [bstep] at hs
    split at hs
    · cases hs
    · rename_i hp
      have hp : c.state = .paused := by simpa using hp
      obtain rfl : { c with state := ChipState.active } = c1 := by simpa using hs
      unfold BInv at h ⊢
      simp only [isTerminateOp, Bool.or_false]
      constructor
      · intro hout
        rcases h.1 hout with ⟨hstate, -⟩
        rw [hp] at hstate; cases hstate
      · rintro ⟨hstate, -⟩; cases hstate

theorem runBOps_inv :
    ∀ (ops : List BOp) (c : ChipBase) (b : Bool) (c1 : ChipBase),
      BInv c b → runBOps c ops = .ok c1 →
      BInv c1 (b || ops.any isTerminateOp) := by
  intro ops
  induction ops with
  | nil =>
    intro c b c1 h hr
    obtain rfl : c = c1 := by simpa [runBOps] using hr
    simpa using h
  | cons op ops ih =>
    intro c b c1 h hr
    unfold runBOps at hr
    cases hs : bstep op c with
    | error e => rw [hs] at hr; cases hr
    | ok c2 =>
      rw [hs] at hr
      have := ih c2 (b || isTerminateOp op) c1 (bstep_inv h hs) hr
      simpa [Bool.or_assoc] using this

end Booyah

/-! ## Operational model of the composite engine and its variants

A store-based small-step interpreter for the chip tree.  Chips live in a
store addressed by `Nat`; method calls are defunctionalised into `Action`s
executed by `exec` with explicit fuel (the tree is an object graph, so
re-entrant calls — e.g. a child synchronously terminating its parent — are
interpreted, not structurally recursive).  Closures (event callbacks,
`Lambda` bodies, chip factories) are defunctionalised.  Emitted
notifications are recorded in an append-only trace. -/

namespace Booyah

/-- A context value: plain data or a chip reference (composites insert
children into `_childChipContext`). -/
inductive Val where
  | str (s : String)
  | chipRef (a : Nat)
deriving DecidableEq, Repr

/-- `ChipContext` in the operational model. -/
abbrev Ctx := List (String × Val)

def assocFind {α : Type} (l : List (String × α)) (k : String) : Option α :=
  (l.find? (fun kv => kv.1 = k)).map (·.2)

/-- `Object.assign({}, a, b)`: keys of `a` (in place, overridden by `b`)
followed by the new keys of `b`. -/
def jsAssign {α : Type} (a b : List (String × α)) : List (String × α) :=
  (a.map fun kv => (kv.1, (assocFind b kv.1).getD kv.2)) ++
    b.filter (fun kv => (assocFind a kv.1).isNone)

def jsAssignOpt {α : Type} (a : List (String × α)) :
    Option (List (String × α)) → List (String × α)
  | none => a
  | some b => jsAssign a b

/-- Canonical array-index key (JS object key ordering: integer-like keys
iterate first, in ascending numeric order). -/
def isArrayIndexKey (s : String) : Bool :=
  match s.toList with
  | [] => false
  | c :: cs => (c :: cs).all Char.isDigit && (cs.isEmpty || c ≠ '0')

def strToNat (s : String) : Nat :=
  s.toList.foldl (fun n c => n * 10 + (c.toNat - 48)) 0

def insertByIndex {α : Type} (x : String × α) :
    List (String × α) → List (String × α)
  | [] => [x]
  | y :: ys =>
    if strToNat x.1 < strToNat y.1 then x :: y :: ys
    else y :: insertByIndex x ys

/-- The key order in which JS iterates an object's own properties:
array-index keys ascending, then the remaining keys in insertion order. -/
def objOrder {α : Type} (l : List (String × α)) : List (String × α) :=
  (l.filter (fun kv => isArrayIndexKey kv.1)).foldr insertByIndex []
    ++ l.filter (fun kv => ! isArrayIndexKey kv.1)

def objSet {α : Type} (l : List (String × α)) (k : String) (v : α) :
    List (String × α) :=
  if (assocFind l k).isSome then
    l.map (fun kv => if kv.1 = k then (k, v) else kv)
  else l ++ [(k, v)]

def objDel {α : Type} (l : List (String × α)) (k : String) : List (String × α) :=
  l.filter (fun kv => kv.1 ≠ k)

def objValues {α : Type} (l : List (String × α)) : List α :=
  (objOrder l).map (·.2)

def objKeys {α : Type} (l : List (String × α)) : List String :=
  (objOrder l).map (·.1)

/-- `ReloadMemento` (lines 175–179). -/
inductive MementoData where
  | noData
  | seqIndex (currentChipIndex : Nat)
  | smVisited (visitedStates : List Signal)
deriving Repr

inductive Memento where
  | mk (className : String) (data : MementoData)
      (children : List (String × Memento))

def Memento.className : Memento → String
  | .mk c _ _ => c

def Memento.data : Memento → MementoData
  | .mk _ d _ => d

def Memento.children : Memento → List (String × Memento)
  | .mk _ _ c => c

/-- Defunctionalised chip factories (`ChipFactory`). -/
inductive FactoryFn where
  | mkForever
  | mkNothing
deriving DecidableEq, Repr

/-- `ChipResolvable`: a chip instance (by address) or a factory. -/
inductive Resolvable where
  | chipAddr (a : Nat)
  | factory (f : FactoryFn)
deriving DecidableEq, Repr

/-- Defunctionalised `Lambda` bodies appearing in the source:
the completion marker closure of `Queue._activateItem` and the readiness
closure of `Composite.activate`.  Both return `undefined`. -/
inductive LambdaFn where
  | setQueueItemFinished (queue : Nat) (itemId : Nat)
  | setReady (chip : Nat)
deriving DecidableEq, Repr

/-- Defunctionalised event callbacks registered by the engine itself. -/
inductive Callback where
  | resizeCb (self : Nat)
  | altChildTerminated (self : Nat) (index : Nat)
  | attrCleanup (self : Nat) (name : String)
  | attrArrayCleanup (self : Nat) (name : String) (chip : Nat)
  | childCtxCleanup (self : Nat) (id : String)
deriving DecidableEq, Repr

inductive Emitter where
  | chipE (a : Nat)
  | windowE
deriving DecidableEq, Repr

/-- An entry of an emitter's own listener registry (`on`/`once`). -/
structure RegEntry where
  event : String
  once : Bool
  cb : Callback
deriving DecidableEq, Repr

/-- A tracked subscription of a chip (`_eventListeners`). -/
structure Listener where
  emitter : Emitter
  event : String
  cb : Callback
deriving DecidableEq, Repr

/-- `SignalDescriptor`: a literal signal or a function
`(context, signal) => signal`. -/
inductive SignalDescriptor where
  | sig (s : Signal)
  | fn (f : Ctx → Signal → Signal)

/-- `ActivateChildChipOptions` (lines 563–585), with `util.fillInOptions`
defaults already applied (every default is `undefined`/absent). -/
structure ActivateChildChipOptions where
  context : Option Ctx := none
  inputSignal : Option Signal := none
  attrName : Option String := none
  includeInChildContext : Bool := false
  id : Option String := none
  reloadMemento : Option Memento := none

/-- `ChipActivationInfo`: the options plus the chip resolvable. -/
structure ChipInfo extends ActivateChildChipOptions where
  chip : Resolvable

/-- `AlternativeChipActivationInfo`: entry of an `Alternative`, with an
optional explicit outcome signal. -/
structure AltInfo where
  chip : Resolvable
  context : Option Ctx := none
  signal : Option Signal := none

inductive QueueItemState where
  | waiting
  | running
  | finished
deriving DecidableEq, Repr

/-- `QueueItem`, given a stable identity so the completion-marker closure
can refer to it. -/
structure QueueItem where
  itemId : Nat
  state : QueueItemState
  context : Ctx
  entityResolvable : Resolvable

structure ParallelOptions where
  terminateOnCompletion : Bool := true

structure SequenceOptions where
  loop : Bool := false
  terminateOnCompletion : Bool := true

/-- Attribute slots a composite binds children to (a single chip or a
growing array of chips). -/
inductive AttrVal where
  | single (a : Nat)
  | arr (l : List Nat)
deriving DecidableEq, Repr

/-- A chip's concrete class together with its variant-specific mutable
fields. -/
inductive Kind where
  | forever
  | transitory (terminateSignal : Signal)
  | wait (duration : Nat) (accumulatedTime : Nat)
  | lam (f : LambdaFn)
  | block
  | parallel (opts : ParallelOptions) (infos : List (Nat × ChipInfo))
      (infoToChip : List (Nat × Nat)) (activatedChipCount : Nat)
      (nextInfoId : Nat)
  | seq (opts : SequenceOptions) (infos : List ChipInfo)
      (currentChipIndex : Nat) (currentChip : Option Nat)
  | stateMachine (states : List (String × ChipInfo))
      (transitions : List (String × SignalDescriptor))
      (startingState : SignalDescriptor) (endingStates : Option (List String))
      (visitedStates : List Signal) (activeChildChip : Option Nat)
      (lastSignal : Option Signal)
  | alternative (infos : List AltInfo)
  | queue (items : List QueueItem) (nextItemId : Nat)

/-- `this.constructor.name`, used for memento matching. -/
def Kind.className : Kind → String
  | .forever => "Forever"
  | .transitory _ => "Transitory"
  | .wait _ _ => "Wait"
  | .lam _ => "Lambda"
  | .block => "Block"
  | .parallel .. => "Parallel"
  | .seq .. => "Sequence"
  | .stateMachine .. => "StateMachine"
  | .alternative _ => "Alternative"
  | .queue _ _ => "Queue"

/-- Whether the class extends `Composite` (and so uses the overridden
`activate`/`tick`/`terminate`/`pause`/`resume`). -/
def Kind.isComposite : Kind → Bool
  | .parallel .. | .seq .. | .stateMachine .. | .alternative _ | .queue _ _ => true
  | _ => false

/-- The full per-chip object: `ChipBase` fields (251–257) plus the
`Composite` fields (598–605) plus the variant data in `kind`. -/
structure ChipObj where
  kind : Kind
  state : ChipState := .inactive
  outputSignal : Option Signal := none
  chipContext : Ctx := []
  lastTickInfo : Nat := 0
  inputSignal : Option Signal := none
  reloadMemento : Option Memento := none
  eventListeners : List Listener := []
  registry : List RegEntry := []
  childChips : List (String × Nat) := []
  childChipContext : Ctx := []
  deferredOutputSignal : Option Signal := none
  methodCallInProgress : Bool := false
  isReady : Bool := false
  attrs : List (String × AttrVal) := []
  preparation : Option Resolvable := none

/-- The chip store: the object heap, the window's listener registry, an
append-only log of emitted notifications `(chip, event)`, and a counter
standing in for `util.uniqueId` / the random ids / object identities. -/
structure Store where
  chips : List ChipObj
  windowReg : List RegEntry := []
  trace : List (Nat × String) := []
  counter : Nat := 0

def getChip (st : Store) (a : Nat) : Except Err ChipObj :=
  match st.chips.get? a with
  | some c => .ok c
  | none => .error .badAddr

def setChip (st : Store) (a : Nat) (c : ChipObj) : Store :=
  { st with chips := st.chips.set a c }

def modifyChip (st : Store) (a : Nat) (f : ChipObj → ChipObj) :
    Except Err Store :=
  match getChip st a with
  | .error e => .error e
  | .ok c => .ok (setChip st a (f c))

def allocChip (st : Store) (c : ChipObj) : Store × Nat :=
  ({ st with chips := st.chips ++ [c] }, st.chips.length)

/-- `resolveChip(resolvable, context)` (lines 143–149): a chip instance is
returned as-is; a factory is invoked (with the context and a fresh
signal), allocating a fresh chip or producing nothing. -/
def resolveChip (r : Resolvable) (_ctx : Ctx) (st : Store) : Store × Option Nat :=
  match r with
  | .chipAddr a => (st, some a)
  | .factory .mkForever =>
    let (st, a) := allocChip st { kind := .forever }
    (st, some a)
  | .factory .mkNothing => (st, none)

/-- Remove one subscription from an emitter registry (`off`). -/
def removeReg (reg : List RegEntry) (ev : String) (cb : Callback) :
    List RegEntry :=
  reg.filter (fun e => ¬(e.event = ev ∧ e.cb = cb))

/-- `this._unsubscribe()` with no filters: every tracked listener is
unsubscribed from its emitter and the tracking list is cleared (with no
filters provided, radash `fork` puts every listener in the removal
component). -/
def unsubscribeAll (st : Store) (self : Nat) : Store :=
  match st.chips.get? self with
  | none => st
  | some c =>
    let st := c.eventListeners.foldl
      (fun st l =>
        match l.emitter with
        | .windowE => { st with windowReg := removeReg st.windowReg l.event l.cb }
        | .chipE a =>
          match st.chips.get? a with
          | none => st
          | some e => setChip st a { e with registry := removeReg e.registry l.event l.cb })
      st
    setChip st self { c with eventListeners := [] }

/-- `_subscribe(emitter, event, cb)`: push the tracking entry on `self`
and register on the emitter (`once` for `_subscribeOnce`). -/
def subscribe (st : Store) (self : Nat) (em : Emitter) (ev : String)
    (cb : Callback) (once : Bool) : Except Err Store :=
  match modifyChip st self (fun c =>
    { c with eventListeners := c.eventListeners ++ [⟨em, ev, cb⟩] }) with
  | .error e => .error e
  | .ok st =>
    match em with
    | .windowE => .ok { st with windowReg := st.windowReg ++ [⟨ev, once, cb⟩] }
    | .chipE a => modifyChip st a (fun e =>
        { e with registry := e.registry ++ [⟨ev, once, cb⟩] })

/-- The pure part of `StateMachine._onAfterTick` (lines 1317–1350):
compute the next-state signal from the terminating signal `signal` of the
active child, given the name of the previously active state. -/
def smUnpack (descriptor : Signal) (signal : Signal) : Signal :=
  if descriptor.params.isEmpty then
    { name := descriptor.name, params := signal.params }
  else descriptor

def smComputeNextState (transitions : List (String × SignalDescriptor))
    (stateNames : List String) (endingStates : Option (List String))
    (ctx : Ctx) (lastSignalName : String) (signal : Signal) :
    Except Err Signal :=
  match assocFind transitions lastSignalName with
  | none =>
    if stateNames.contains signal.name
        || (endingStates.getD []).contains signal.name then
      .ok (smUnpack signal signal)
    else .error (.unknownSignal signal.name)
  | some sd =>
    let descriptor := match sd with
      | .sig s => s
      | .fn f => f ctx signal
    .ok (smUnpack descriptor signal)

/-- The pure effect of the defunctionalised `Lambda` bodies (both return
`undefined`). -/
def runLambdaFn (f : LambdaFn) (st : Store) : Store :=
  match f with
  | .setReady a =>
    match st.chips.get? a with
    | none => st
    | some c => setChip st a { c with isReady := true }
  | .setQueueItemFinished q itemId =>
    match st.chips.get? q with
    | none => st
    | some c =>
      match c.kind with
      | .queue items nextId =>
        let items := items.map fun it =>
          if it.itemId = itemId then { it with state := .finished } else it
        setChip st q { c with kind := .queue items nextId }
      | _ => st

/-- The pure `_onTerminate` hooks of the modelled variants (1161–1163,
1356–1359, 1707–1709); every other variant's hook is a no-op. -/
def applyOnTerminate (c : ChipObj) : ChipObj :=
  match c.kind with
  | .seq opts infos idx _ => { c with kind := .seq opts infos idx none }
  | .stateMachine s t ss es v _ _ =>
    { c with kind := .stateMachine s t ss es v none none }
  | .queue _ nextId => { c with kind := .queue [] nextId }
  | _ => c

/-- The defunctionalised method calls of the engine. -/
inductive Action where
  | activate (self : Nat) (tickInfo : Nat) (ctx : Ctx)
      (inputSignal : Option Signal) (memento : Option Memento)
  | baseActivate (self : Nat) (tickInfo : Nat) (ctx : Ctx)
      (inputSignal : Option Signal) (memento : Option Memento)
  | tick (self : Nat) (tickInfo : Nat)
  | terminate (self : Nat) (outputSignal : Option Signal)
  | pause (self : Nat)
  | resume (self : Nat)
  | resize (self : Nat)
  | emit (self : Nat) (event : String) (arg : Option Signal)
  | runCbs (cbs : List Callback) (arg : Option Signal)
  | runCb (cb : Callback) (arg : Option Signal)
  | onActivate (self : Nat)
  | onTick (self : Nat)
  | onAfterTick (self : Nat)
  | activateChildChip (self : Nat) (resolvable : Resolvable)
      (options : ActivateChildChipOptions)
  | terminateChildChip (self : Nat) (chip : Nat) (outputSignal : Option Signal)
  | tickChildChips (self : Nat)
  | tickChildrenLoop (self : Nat) (chips : List Nat)
  | terminateAllChildChips (self : Nat) (outputSignal : Option Signal)
  | terminateAllLoop (self : Nat) (chips : List Nat) (outputSignal : Option Signal)
  | removeTerminatedChildChips (self : Nat)
  | removeTerminatedLoop (self : Nat) (ids : List String)
  | pauseChildrenLoop (self : Nat) (chips : List Nat)
  | resumeChildrenLoop (self : Nat) (chips : List Nat)
  | parallelActivateLoop (self : Nat) (i : Nat)
  | parallelAddChildChip (self : Nat) (info : ChipInfo)
  | alternativeActivateLoop (self : Nat) (i : Nat)
  | switchChip (self : Nat)
  | advance (self : Nat) (signal : Signal)
  | changeState (self : Nat) (nextState : Signal)
  | queueNext (self : Nat)
  | queueAdd (self : Nat) (item : Resolvable) (context : Option Ctx)
  | queueActivateItem (self : Nat) (itemId : Nat)

/-- Result of one interpreted call: the new store and, for
`_activateChildChip`, the activated chip's address. -/
abbrev ExecM := Except Err (Store × Option Nat)

def ret (st : Store) : ExecM := .ok (st, none)

/-- `s.endsWith post`, computed structurally on the character lists (the
attribute-array convention checks the suffix `[]`). -/
def strEndsWith (s post : String) : Bool :=
  post.data.isSuffixOf s.data

/-- One step of the interpreter, parameterised by the recursive
interpreter `rec` (tied by `exec` below with explicit fuel).  Every arm is
a direct translation of the corresponding source method; line numbers
refer to the concatenated `src/src/event.ts`. -/
def execCase (rec : Action → Store → ExecM) (a : Action) (st : Store) : ExecM :=
  match a with
  | .activate self tickInfo ctx inputSignal memento => do
    let c ← getChip st self
    if c.kind.isComposite then do
      -- Composite.activate (616–641)
      let st := setChip st self { c with childChips := [], childChipContext := [] }
      let st ← modifyChip st self (fun c => { c with methodCallInProgress := true })
      let (st, _) ← rec (.baseActivate self tickInfo ctx inputSignal memento) st
      let st ← modifyChip st self (fun c => { c with methodCallInProgress := false })
      let st ← modifyChip st self (fun c => { c with isReady := c.preparation.isNone })
      let c ← getChip st self
      let st ←
        match c.preparation with
        | none => pure st
        | some p => do
          -- this._activateChildChip(new Sequence([prep, new Lambda(...)]))
          let (st, lamAddr) := allocChip st { kind := .lam (.setReady self) }
          let (st, seqAddr) := allocChip st
            { kind := .seq {} [{ chip := p }, { chip := .chipAddr lamAddr }] 0 none }
          let (st, _) ← rec (.activateChildChip self (.chipAddr seqAddr) {}) st
          pure st
      -- StateMachine.activate tail (1291–1310)
      let c ← getChip st self
      match c.kind with
      | .stateMachine states transitions startingState endingStates _ active last =>
        let k0 := Kind.stateMachine states transitions startingState endingStates
          [] active last
        let st := setChip st self { c with kind := k0 }
        let c ← getChip st self
        match c.reloadMemento with
        | some m =>
          let visited := match m.data with
            | .smVisited v => v
            | _ => []
          let k1 := Kind.stateMachine states transitions startingState endingStates
            visited active last
          let st := setChip st self { c with kind := k1 }
          -- this._changeState(_.last(this._visitedStates) ?? new Signal())
          rec (.changeState self (visited.getLast?.getD Signal.default)) st
        | none =>
          let startSignal := match startingState with
            | .fn f => f ctx Signal.default
            | .sig s => s
          rec (.changeState self startSignal) st
      | _ => ret st
    else
      rec (.baseActivate self tickInfo ctx inputSignal memento) st
  | .baseActivate self tickInfo ctx inputSignal memento => do
    -- ChipBase.activate (263–289)
    let c ← getChip st self
    if c.state ≠ .inactive then .error (.invalidState "activate" c.state)
    else do
      let st := setChip st self
        { c with chipContext := ctx, lastTickInfo := tickInfo,
                 inputSignal := inputSignal, state := .active,
                 outputSignal := none,
                 reloadMemento :=
                   match memento with
                   | some m => if m.className = c.kind.className then some m else none
                   | none => none }
      let (st, _) ← rec (.onActivate self) st
      -- this._subscribe(window, "resize", () => this.resize())
      let st ← subscribe st self .windowE "resize" (.resizeCb self) false
      let (st, _) ← rec (.resize self) st
      rec (.emit self "activated" inputSignal) st
  | .tick self tickInfo => do
    let c ← getChip st self
    if c.kind.isComposite then
      -- Composite.tick (647–664)
      if c.state = .paused then ret st
      else if c.state ≠ .active then .error (.invalidState "tick" c.state)
      else
        match c.deferredOutputSignal with
        | some d => rec (.terminate self (some d)) st
        | none => do
          let st := setChip st self { c with lastTickInfo := tickInfo }
          let (st, _) ← rec (.onTick self) st
          let st ← modifyChip st self (fun c => { c with methodCallInProgress := true })
          let (st, _) ← rec (.tickChildChips self) st
          let st ← modifyChip st self (fun c => { c with methodCallInProgress := false })
          rec (.onAfterTick self) st
    else
      -- ChipBase.tick (291–298)
      if c.state = .paused then ret st
      else if c.state ≠ .active then .error (.invalidState "tick" c.state)
      else do
        let st := setChip st self { c with lastTickInfo := tickInfo }
        rec (.onTick self) st
  | .terminate self outputSignal => do
    let sig := outputSignal.getD Signal.default
    let c ← getChip st self
    if c.kind.isComposite then
      -- Composite.terminate (666–688)
      if c.state ≠ .active ∧ c.state ≠ .paused then
        .error (.invalidState "terminate" c.state)
      else if c.methodCallInProgress then
        ret (setChip st self { c with deferredOutputSignal := some sig })
      else do
        let st := setChip st self { c with state := .inactive, isReady := false }
        let st := unsubscribeAll st self
        let (st, _) ← rec (.terminateAllChildChips self none) st
        let st ← modifyChip st self (fun c =>
          applyOnTerminate { c with outputSignal := some sig })
        rec (.emit self "terminated" (some sig)) st
    else
      -- ChipBase.terminate (311–323)
      if c.state ≠ .active ∧ c.state ≠ .paused then
        .error (.invalidState "terminate" c.state)
      else do
        let st := setChip st self
          (applyOnTerminate { c with outputSignal := some sig })
        let st := unsubscribeAll st self
        let st ← modifyChip st self (fun c => { c with state := .inactive })
        rec (.emit self "terminated" (some sig)) st
  | .pause self => do
    -- ChipBase.pause (325–332) / Composite.pause (690–697)
    let c ← getChip st self
    if c.state ≠ .active then .error (.invalidState "pause" c.state)
    else do
      let st := setChip st self { c with state := .paused }
      -- _onPause(): no modelled variant overrides it
      if c.kind.isComposite then do
        let (st, _) ← rec (.removeTerminatedChildChips self) st
        let c ← getChip st self
        rec (.pauseChildrenLoop self (objValues c.childChips)) st
      else ret st
  | .resume self => do
    -- ChipBase.resume (334–341) / Composite.resume (699–706)
    let c ← getChip st self
    if c.state ≠ .paused then .error (.invalidState "resume" c.state)
    else do
      let st := setChip st self { c with state := .active }
      if c.kind.isComposite then do
        let (st, _) ← rec (.removeTerminatedChildChips self) st
        let c ← getChip st self
        rec (.resumeChildrenLoop self (objValues c.childChips)) st
      else ret st
  | .pauseChildrenLoop self chips =>
    match chips with
    | [] => ret st
    | a :: rest => do
      let (st, _) ← rec (.pause a) st
      rec (.pauseChildrenLoop self rest) st
  | .resumeChildrenLoop self chips =>
    match chips with
    | [] => ret st
    | a :: rest => do
      let (st, _) ← rec (.resume a) st
      rec (.resumeChildrenLoop self rest) st
  | .resize self => do
    -- ChipBase.resize (300–309): _onResize is a no-op in every variant
    let (st, _) ← rec (.emit self "resized" none) st
    ret st
  | .emit self event arg => do
    let c ← getChip st self
    let st := { st with trace := st.trace ++ [(self, event)] }
    let matching := c.registry.filter (fun e => e.event = event)
    let st := setChip st self
      { c with registry := c.registry.filter (fun e => ¬(e.event = event ∧ e.once)) }
    rec (.runCbs (matching.map (·.cb)) arg) st
  | .runCbs cbs arg =>
    match cbs with
    | [] => ret st
    | cb :: rest => do
      let (st, _) ← rec (.runCb cb arg) st
      rec (.runCbs rest arg) st
  | .runCb cb _arg =>
    match cb with
    | .resizeCb a => rec (.resize a) st
    | .altChildTerminated a index => do
      -- Alternative._onChildTerminated (1642–1646)
      let c ← getChip st a
      match c.kind with
      | .alternative infos =>
        let terminateWith :=
          match infos.get? index with
          | some info => info.signal.getD { name := toString index, params := [] }
          | none => { name := toString index, params := [] }
        rec (.terminate a (some terminateWith)) st
      | _ => ret st
    | .attrCleanup a name => do
      let st ← modifyChip st a (fun c => { c with attrs := objDel c.attrs name })
      ret st
    | .attrArrayCleanup a name chip => do
      -- splice(indexOf(chip), 1): when absent, splice(-1, 1) removes the last
      let st ← modifyChip st a (fun c =>
        { c with attrs :=
            match assocFind c.attrs name with
            | some (.arr l) =>
              objSet c.attrs name (.arr
                (match l.indexOf chip with
                 | i => if i < l.length then l.eraseIdx i else l.dropLast))
            | _ => c.attrs })
      ret st
    | .childCtxCleanup a id => do
      let st ← modifyChip st a (fun c =>
        { c with childChipContext := objDel c.childChipContext id })
      ret st
  | .onActivate self => do
    let c ← getChip st self
    match c.kind with
    | .forever | .block | .stateMachine .. | .queue _ _ => ret st
    | .transitory sig =>
      -- Transitory._onActivate (551–553)
      rec (.terminate self (some sig)) st
    | .wait d _ =>
      -- Wait._onActivate (1538–1540)
      ret (setChip st self { c with kind := .wait d 0 })
    | .lam f => do
      -- Lambda._onActivate (1520–1526); the defunctionalised bodies
      -- return undefined, so terminate(new Signal())
      let st := runLambdaFn f st
      rec (.terminate self none) st
    | .parallel opts infos _ _ _ =>
      -- Parallel._onActivate (965–989)
      if infos.isEmpty then
        if opts.terminateOnCompletion then
          rec (.terminate self (some Signal.default)) st
        else ret st
      else rec (.parallelActivateLoop self 0) st
    | .seq opts infos _ _ => do
      -- Sequence._onActivate (1140–1152)
      let idx := match c.reloadMemento with
        | some m => match m.data with
          | .seqIndex n => n
          | _ => 0
        | none => 0
      let st := setChip st self { c with kind := .seq opts infos idx none }
      if infos.isEmpty then
        if opts.terminateOnCompletion then
          rec (.terminate self (some Signal.default)) st
        else ret st
      else rec (.switchChip self) st
    | .alternative _ =>
      -- Alternative._onActivate (1625–1640)
      rec (.alternativeActivateLoop self 0) st
  | .onTick self => do
    let c ← getChip st self
    match c.kind with
    | .wait d accum =>
      -- Wait._onTick (1542–1548)
      let accum := accum + c.lastTickInfo
      let st := setChip st self { c with kind := .wait d accum }
      if d ≤ accum then rec (.terminate self none) st else ret st
    | .queue items nextId =>
      -- Queue._onTick (1692–1705)
      let items := items.filter (fun it => it.state ≠ .finished)
      let st := setChip st self { c with kind := .queue items nextId }
      if items.isEmpty then ret st
      else
        match items.head? with
        | none => ret st
        | some item =>
          if item.state ≠ .waiting then ret st
          else rec (.queueActivateItem self item.itemId) st
    | _ => ret st
  | .onAfterTick self => do
    let c ← getChip st self
    match c.kind with
    | .parallel opts _ _ _ _ =>
      -- Parallel._onAfterTick (991–997)
      if c.childChips.isEmpty ∧ opts.terminateOnCompletion then
        rec (.terminate self (some Signal.default)) st
      else ret st
    | .seq _ _ _ currentChip =>
      -- Sequence._onAfterTick (1154–1159)
      match currentChip with
      | none => ret st
      | some cc => do
        let child ← getChip st cc
        match child.outputSignal with
        | some sig => rec (.advance self sig) st
        | none => ret st
    | .stateMachine states transitions _ endingStates _ active last =>
      -- StateMachine._onAfterTick (1312–1354)
      match active with
      | none => ret st
      | some ac => do
        let child ← getChip st ac
        match child.outputSignal, last with
        | some sig, some ls =>
          match smComputeNextState transitions (states.map (·.1)) endingStates
              c.chipContext ls.name sig with
          | .error e => .error e
          | .ok next => rec (.changeState self next) st
        | _, _ => ret st
    | _ => ret st
  | .activateChildChip self resolvable options => do
    -- Composite._activateChildChip (718–840)
    let c ← getChip st self
    if c.state = .inactive then .error .compositeInactive
    else do
      -- attribute-replacement (730–747)
      let st ←
        match options.attrName with
        | some attr =>
          if strEndsWith attr "[]" then pure st
          else
            match assocFind c.attrs attr with
            | some (.single old) => do
              let (st, _) ← rec (.terminateChildChip self old none) st
              pure st
            | some (.arr _) => .error .attrNotChip
            | none => pure st
        | none => pure st
      let c ← getChip st self
      -- providedId (749–756)
      let (st, providedId) :=
        match options.id.orElse (fun _ => options.attrName) with
        | none => (st, (none : Option String))
        | some pid =>
          if strEndsWith pid "[]" then
            ({ st with counter := st.counter + 1 },
              some (pid ++ toString st.counter))
          else (st, some pid)
      match providedId with
      | some pid =>
        if (assocFind c.childChips pid).isSome then .error .duplicateId
        else execAddChild rec self resolvable options st c providedId
      | none => execAddChild rec self resolvable options st c providedId
  | .terminateChildChip self chip outputSignal => do
    -- Composite._terminateChildChip (842–861)
    let c ← getChip st self
    if c.state = .inactive then .error .compositeInactive
    else
      match ((objOrder c.childChips).find? (fun kv => kv.2 = chip)).map (·.1) with
      | none => .error .cannotFindChip
      | some childId => do
        let (st, _) ← rec (.terminate chip outputSignal) st
        let st ← modifyChip st self (fun c =>
          { c with childChips := objDel c.childChips childId })
        rec (.emit self "terminatedChildChip" none) st
  | .tickChildChips self => do
    -- Composite._tickChildChips (867–873)
    let c ← getChip st self
    let (st, _) ← rec (.tickChildrenLoop self (objValues c.childChips)) st
    rec (.removeTerminatedChildChips self) st
  | .tickChildrenLoop self chips =>
    match chips with
    | [] => ret st
    | a :: rest => do
      let child ← getChip st a
      let st ←
        if child.state ≠ .inactive then do
          let c ← getChip st self
          let (st, _) ← rec (.tick a c.lastTickInfo) st
          pure st
        else pure st
      rec (.tickChildrenLoop self rest) st
  | .terminateAllChildChips self outputSignal => do
    -- Composite._terminateAllChildChips (876–886)
    let c ← getChip st self
    let (st, _) ← rec (.terminateAllLoop self (objValues c.childChips) outputSignal) st
    let st ← modifyChip st self (fun c => { c with childChips := [] })
    ret st
  | .terminateAllLoop self chips outputSignal =>
    match chips with
    | [] => ret st
    | a :: rest => do
      let child ← getChip st a
      let st ←
        if child.state = .active ∨ child.state = .paused then do
          let (st, _) ← rec (.terminate a outputSignal) st
          pure st
        else pure st
      let (st, _) ← rec (.emit self "terminatedChildChip" none) st
      rec (.terminateAllLoop self rest outputSignal) st
  | .removeTerminatedChildChips self => do
    -- Composite._removeTerminatedChildChips (889–898)
    let c ← getChip st self
    rec (.removeTerminatedLoop self (objKeys c.childChips)) st
  | .removeTerminatedLoop self ids =>
    match ids with
    | [] => ret st
    | id :: rest => do
      let c ← getChip st self
      match assocFind c.childChips id with
      | none => rec (.removeTerminatedLoop self rest) st
      | some a => do
        let child ← getChip st a
        if child.state = .inactive then do
          let st := setChip st self
            { c with childChips := objDel c.childChips id }
          let (st, _) ← rec (.emit self "terminatedChildChip" none) st
          rec (.removeTerminatedLoop self rest) st
        else rec (.removeTerminatedLoop self rest) st
  | .parallelActivateLoop self i => do
    -- the loop of Parallel._onActivate (973–988)
    let c ← getChip st self
    match c.kind with
    | .parallel opts infos infoToChip count nextId =>
      match infos.get? i with
      | none => ret st
      | some (infoId, info) => do
        let infoWithId :=
          if info.attrName.isSome || info.id.isSome then info
          else { info with id := some (toString count) }
        let (st, r) ← rec (.activateChildChip self info.chip
          infoWithId.toActivateChildChipOptions) st
        match r with
        | none => .error .badAddr
        | some chipAddr => do
          let st ← modifyChip st self (fun c =>
            match c.kind with
            | .parallel opts2 infos2 infoToChip2 count2 nextId2 =>
              let k := Kind.parallel opts2 infos2
                (infoToChip2 ++ [(infoId, chipAddr)]) (count2 + 1) nextId2
              { c with kind := k }
            | _ => c)
          rec (.parallelActivateLoop self (i + 1)) st
    | _ => ret st
  | .parallelAddChildChip self info => do
    -- Parallel.addChildChip (944–962)
    let c ← getChip st self
    match c.kind with
    | .parallel opts infos infoToChip count nextId => do
      let k := Kind.parallel opts (infos ++ [(nextId, info)])
        infoToChip count (nextId + 1)
      let st := setChip st self { c with kind := k }
      if c.state ≠ .inactive then do
        let infoWithId :=
          if info.attrName.isSome || info.id.isSome then info
          else { info with id := some (toString count) }
        let (st, r) ← rec (.activateChildChip self info.chip
          infoWithId.toActivateChildChipOptions) st
        match r with
        | none => .error .badAddr
        | some chipAddr => do
          let st ← modifyChip st self (fun c =>
            match c.kind with
            | .parallel opts2 infos2 infoToChip2 count2 nextId2 =>
              let k := Kind.parallel opts2 infos2
                (infoToChip2 ++ [(nextId, chipAddr)]) (count2 + 1) nextId2
              { c with kind := k }
            | _ => c)
          ret st
      else ret st
    | _ => ret st
  | .alternativeActivateLoop self i => do
    -- the loop of Alternative._onActivate (1626–1639)
    let c ← getChip st self
    match c.kind with
    | .alternative infos =>
      match infos.get? i with
      | none => ret st
      | some info => do
        let (st, chipOpt) := resolveChip info.chip (info.context.getD []) st
        match chipOpt with
        | none => rec (.alternativeActivateLoop self (i + 1)) st
        | some chipAddr => do
          -- this._subscribe(chip, "terminated", () => this._onChildTerminated(i))
          let st ← subscribe st self (.chipE chipAddr) "terminated"
            (.altChildTerminated self i) false
          let (st, _) ← rec (.activateChildChip self info.chip
            { context := info.context }) st
          rec (.alternativeActivateLoop self (i + 1)) st
    | _ => ret st
  | .switchChip self => do
    -- Sequence._switchChip (1115–1138)
    let c ← getChip st self
    match c.kind with
    | .seq opts infos idx currentChip => do
      let st ←
        match currentChip with
        | some cc => do
          let st ←
            if c.childChips.length > 0 then do
              let (st, _) ← rec (.terminateChildChip self cc none) st
              pure st
            else pure st
          modifyChip st self (fun c =>
            match c.kind with
            | .seq o2 i2 x2 _ => { c with kind := .seq o2 i2 x2 none }
            | _ => c)
        | none => pure st
      let c ← getChip st self
      match c.kind with
      | .seq opts2 infos2 idx2 _ =>
        match infos2.get? idx2 with
        | none => ret st
        | some info => do
          let infoWithId :=
            if info.attrName.isSome || info.id.isSome then info
            else { info with id := some (toString (infos2.length - 1)) }
          let (st, r) ← rec (.activateChildChip self info.chip
            infoWithId.toActivateChildChipOptions) st
          let st ← modifyChip st self (fun c =>
            match c.kind with
            | .seq o3 i3 x3 _ => { c with kind := .seq o3 i3 x3 r }
            | _ => c)
          ret st
      | _ => ret st
    | _ => ret st
  | .advance self signal => do
    -- Sequence._advance (1171–1186)
    let c ← getChip st self
    match c.kind with
    | .seq opts infos idx currentChip => do
      let st := setChip st self
        { c with kind := .seq opts infos (idx + 1) currentChip }
      let (st, _) ← rec (.switchChip self) st
      let c ← getChip st self
      match c.kind with
      | .seq opts2 infos2 idx2 _ =>
        if idx2 ≥ infos2.length then
          if opts2.loop then do
            let st := setChip st self
              { c with kind := .seq opts2 infos2 0 none }
            rec (.switchChip self) st
          else if opts2.terminateOnCompletion then
            rec (.terminate self (some signal)) st
          else ret st
        else ret st
      | _ => ret st
    | _ => ret st
  | .changeState self nextState => do
    -- StateMachine._changeState (1378–1414)
    let c ← getChip st self
    match c.kind with
    | .stateMachine states transitions startingState endingStates visited active last => do
      let st ←
        match active with
        | some ac => do
          let st ←
            if c.childChips.length > 0 then do
              let (st, _) ← rec (.terminateChildChip self ac none) st
              pure st
            else pure st
          modifyChip st self (fun c =>
            match c.kind with
            | .stateMachine s2 t2 ss2 es2 v2 _ l2 =>
              { c with kind := .stateMachine s2 t2 ss2 es2 v2 none l2 }
            | _ => c)
        | none => pure st
      let c ← getChip st self
      if (endingStates.getD []).contains nextState.name then do
        -- ending state reached: record it and terminate with the signal
        let st ← modifyChip st self (fun c =>
          match c.kind with
          | .stateMachine s2 t2 ss2 es2 v2 a2 _ =>
            let k := Kind.stateMachine s2 t2 ss2 es2 (v2 ++ [nextState]) a2
              (some nextState)
            { c with kind := k }
          | _ => c)
        rec (.terminate self (some nextState)) st
      else
        match assocFind states nextState.name with
        | some info => do
          let (st, r) ← rec (.activateChildChip self info.chip
            { context := info.context, inputSignal := some nextState,
              id := some nextState.name }) st
          let st ← modifyChip st self (fun c =>
            match c.kind with
            | .stateMachine s2 t2 ss2 es2 v2 _ l2 =>
              let k := Kind.stateMachine s2 t2 ss2 es2 (v2 ++ [nextState]) r
                (some nextState)
              { c with kind := k }
            | _ => c)
          rec (.emit self "stateChange" (some nextState)) st
        | none => .error (.unknownState nextState.name)
    | _ => ret st
  | .queueNext self => do
    -- Queue.next (1684–1690)
    let c ← getChip st self
    match c.kind with
    | .queue items _ =>
      if items.isEmpty then ret st
      else
        match items.find? (fun it => it.state = .running) with
        | none => ret st
        | some item =>
          let (st, chipOpt) := resolveChip item.entityResolvable item.context st
          match chipOpt with
          | none => ret st
          | some a => rec (.terminate a none) st
    | _ => ret st
  | .queueAdd self item context => do
    -- Queue.add (1668–1679): context defaults to the queue's own context
    let c ← getChip st self
    match c.kind with
    | .queue items nextId =>
      let newItem : QueueItem :=
        { itemId := nextId, state := .waiting,
          context := context.getD c.chipContext, entityResolvable := item }
      ret (setChip st self { c with kind := .queue (items ++ [newItem]) (nextId + 1) })
    | _ => ret st
  | .queueActivateItem self itemId => do
    -- Queue._activateItem (1711–1725)
    let c ← getChip st self
    match c.kind with
    | .queue items nextId =>
      match items.find? (fun it => it.itemId = itemId) with
      | none => ret st
      | some item => do
        let items := items.map fun it =>
          if it.itemId = itemId then { it with state := .running } else it
        let st := setChip st self { c with kind := .queue items nextId }
        let (st, lamAddr) := allocChip st
          { kind := .lam (.setQueueItemFinished self itemId) }
        let (st, seqAddr) := allocChip st
          { kind := .seq {} [{ chip := item.entityResolvable },
              { chip := .chipAddr lamAddr }] 0 none }
        let (st, _) ← rec (.activateChildChip self (.chipAddr seqAddr)
          { context := some item.context }) st
        ret st
    | _ => ret st
where
  /-- The tail of `_activateChildChip` after the duplicate-id check
  (758–840). -/
  execAddChild (rec : Action → Store → ExecM) (self : Nat)
      (resolvable : Resolvable) (options : ActivateChildChipOptions)
      (st : Store) (c : ChipObj) (providedId : Option String) : ExecM := do
    let inputSignal := options.inputSignal.getD Signal.default
    -- childContext (760–765): chipContext ⊕ childChipContext ⊕
    -- defaultChildChipContext (undefined in every variant) ⊕ options.context
    let childContext := jsAssignOpt (jsAssign c.chipContext c.childChipContext)
      options.context
    let (st, chipOpt) := resolveChip resolvable childContext st
    match chipOpt with
    | none => .error .noChipProduced
    | some chipAddr => do
      -- reload memento lookup by id (773–776)
      let reloadMemento := providedId.bind (fun pid =>
        c.reloadMemento.bind (fun m => assocFind m.children pid))
      -- childId (778–781): random temporary id when none provided
      let (st, childId) :=
        match providedId with
        | some pid => (st, pid)
        | none =>
          ({ st with counter := st.counter + 1 },
            "unknown_" ++ toString st.counter)
      let st ← modifyChip st self (fun c =>
        { c with childChips := objSet c.childChips childId chipAddr })
      -- attribute binding (783–816)
      let st ←
        match options.attrName with
        | none => pure st
        | some attr =>
          if strEndsWith attr "[]" then do
            let name := attr.dropRight 2
            let c ← getChip st self
            let st ←
              match assocFind c.attrs name with
              | some (.arr l) =>
                pure (setChip st self
                  { c with attrs := objSet c.attrs name (.arr (l ++ [chipAddr])) })
              | some (.single _) => .error .attrNotChip
              | none =>
                pure (setChip st self
                  { c with attrs := objSet c.attrs name (.arr [chipAddr]) })
            subscribe st self (.chipE chipAddr) "terminated"
              (.attrArrayCleanup self name chipAddr) true
          else do
            let st ← modifyChip st self (fun c =>
              { c with attrs := objSet c.attrs attr (.single chipAddr) })
            subscribe st self (.chipE chipAddr) "terminated"
              (.attrCleanup self attr) true
      let (st, _) ← rec (.emit self "beforeActivatedChildChip" (some inputSignal)) st
      -- chip.activate(this._lastTickInfo, childContext, inputSignal, memento)
      let cSelf ← getChip st self
      let (st, _) ← rec (.activate chipAddr cSelf.lastTickInfo childContext
        (some inputSignal) reloadMemento) st
      -- includeInChildContext (822–835)
      let st ←
        if options.includeInChildContext then
          match providedId with
          | none => .error .needIdForChildContext
          | some pid => do
            let st ← modifyChip st self (fun c =>
              { c with childChipContext :=
                  objSet c.childChipContext pid (.chipRef chipAddr) })
            subscribe st self (.chipE chipAddr) "terminated"
              (.childCtxCleanup self pid) true
        else pure st
      let (st, _) ← rec (.emit self "activatedChildChip" (some inputSignal)) st
      .ok (st, some chipAddr)

/-- The interpreter: `execCase` tied with explicit fuel. -/
def exec : Nat → Action → Store → ExecM
  | 0, _, _ => .error .outOfFuel
  | Nat.succ n, a, st => execCase (exec n) a st

/-- Run a list of external calls in order (a host driving the tree),
failing fast. -/
def execs (fuel : Nat) (acts : List Action) (st : Store) : Except Err Store :=
  match acts with
  | [] => .ok st
  | a :: rest =>
    match exec fuel a st with
    | .error e => .error e
    | .ok (st, _) => execs fuel rest st

/-- Projections of a run's outcome, used to state concrete scenarios. -/
def chipStateOf (r : Except Err Store) (a : Nat) : Option ChipState :=
  match r with
  | .error _ => none
  | .ok st => (st.chips.get? a).map (·.state)

def chipOutOf (r : Except Err Store) (a : Nat) : Option (Option Signal) :=
  match r with
  | .error _ => none
  | .ok st => (st.chips.get? a).map (·.outputSignal)

def chipDeferredOf (r : Except Err Store) (a : Nat) : Option (Option Signal) :=
  match r with
  | .error _ => none
  | .ok st => (st.chips.get? a).map (·.deferredOutputSignal)

def traceOf (r : Except Err Store) : Option (List (Nat × String)) :=
  match r with
  | .error _ => none
  | .ok st => some st.trace

end Booyah

/-! ## C1: deferred termination of composites -/

namespace Booyah

theorem except_bind_ok {α β ε : Type} (a : α) (f : α → Except ε β) :
    (Except.ok a >>= f) = f a := rfl

theorem except_bind_err {α β ε : Type} (e : ε) (f : α → Except ε β) :
    ((Except.error e : Except ε α) >>= f) = Except.error e := rfl

theorem except_pure {α ε : Type} (a : α) :
    (pure a : Except ε α) = Except.ok a := rfl

theorem terminate_defers {n : Nat} {st : Store} {a : Nat} {c : ChipObj}
    (sig : Signal) (hget : getChip st a = .ok c)
    (hcomp : c.kind.isComposite = true)
    (hstate : c.state = .active ∨ c.state = .paused)
    (hflag : c.methodCallInProgress = true) :
    exec (n + 1) (.terminate a (some sig)) st
      = .ok (setChip st a { c with deferredOutputSignal := some sig }, none) := by
  rcases hstate with hs | hs <;>
    simp [exec, execCase, hget, except_bind_ok, hcomp, hflag, hs, ret]

theorem tick_runs_deferred {n : Nat} {st : Store} {a : Nat} {c : ChipObj}
    (ti : Nat) (d : Signal) (hget : getChip st a = .ok c)
    (hcomp : c.kind.isComposite = true) (hstate : c.state = .active)
    (hdef : c.deferredOutputSignal = some d) :
    exec (n + 1) (.tick a ti) st = exec n (.terminate a (some d)) st := by
  simp [exec, execCase, hget, except_bind_ok, hcomp, hstate, hdef]

/-- C1 (amended).  (i) A `terminate` reaching a composite whose
`_methodCallInProgress` flag is set (the flag is raised around the base
part of `activate` and around the child-ticking phase of `tick`) stores
the signal in `_deferredOutputSignal` and changes nothing else — in
particular the composite remains `active`; (ii) a composite that is active
with a stored deferred signal executes exactly that stored termination at
the very start of its next `tick`, before the tick hook and before any
child receives a tick (the whole `tick` call is that `terminate` call).
The claim's stronger statement — that every `terminate` arriving while
`tick()` executes is deferred — fails for terminations issued from the
composite's own tick/after-tick hooks (see the counterexample). -/
theorem C1_deferred_termination :
    (∀ (n : Nat) (st : Store) (a : Nat) (c : ChipObj) (sig : Signal),
      getChip st a = .ok c → c.kind.isComposite = true →
      (c.state = .active ∨ c.state = .paused) →
      c.methodCallInProgress = true →
      exec (n + 1) (.terminate a (some sig)) st
        = .ok (setChip st a { c with deferredOutputSignal := some sig }, none))
    ∧ (∀ (n : Nat) (st : Store) (a : Nat) (c : ChipObj) (ti : Nat) (d : Signal),
        getChip st a = .ok c → c.kind.isComposite = true →
        c.state = .active → c.deferredOutputSignal = some d →
        exec (n + 1) (.tick a ti) st = exec n (.terminate a (some d)) st) :=
  ⟨fun _ _ _ _ sig hg hc hs hf => terminate_defers sig hg hc hs hf,
   fun _ _ _ _ ti d hg hc hs hd => tick_runs_deferred ti d hg hc hs hd⟩

/-- A composite mid-call (flag raised), for the C1 witness. -/
def c1FlagStore : Store :=
  { chips := [{ kind := .parallel {} [] [] 0 0, state := .active,
                methodCallInProgress := true }] }

/-- A composite with a stored deferred signal, for the C1 witness. -/
def c1DeferredStore : Store :=
  { chips := [{ kind := .parallel {} [] [] 0 0, state := .active,
                deferredOutputSignal := some { name := "d" } }] }

theorem C1_deferred_termination_witness :
    exec 5 (.terminate 0 (some { name := "s" })) c1FlagStore
      = .ok (setChip c1FlagStore 0
          { kind := .parallel {} [] [] 0 0, state := .active,
            methodCallInProgress := true,
            deferredOutputSignal := some { name := "s" } }, none)
    ∧ exec 5 (.tick 0 7) c1DeferredStore
        = exec 4 (.terminate 0 (some { name := "d" })) c1DeferredStore :=
  ⟨C1_deferred_termination.1 4 c1FlagStore 0
      { kind := .parallel {} [] [] 0 0, state := .active,
        methodCallInProgress := true }
      { name := "s" } rfl rfl (Or.inl rfl) rfl,
   C1_deferred_termination.2 4 c1DeferredStore 0
      { kind := .parallel {} [] [] 0 0, state := .active,
        deferredOutputSignal := some { name := "d" } }
      7 { name := "d" } rfl rfl rfl rfl⟩

/-- A `Sequence` over a single `Transitory` child: the child terminates
during its own activation, and on the sequence's first `tick` the
after-tick hook advances past the end and calls `terminate` on the
sequence itself. -/
def c1SeqStore : Store :=
  { chips := [
      { kind := .transitory { name := "t" } },
      { kind := .seq {} [{ chip := .chipAddr 0 }] 0 none } ] }

/-- C1 counterexample.  Before its first tick the activated sequence is
`active` with NO stored deferred signal; after that single `tick` call it
is `inactive` (with output signal `"t"`) and still has no stored signal:
the `terminate` issued while `tick()` was executing (by
`Sequence._advance`, called from the after-tick hook) took effect
immediately instead of being stored and honored at the start of the next
tick, contradicting the claim that a `terminate` arriving during `tick()`
never takes effect immediately. -/
theorem C1_counterexample :
    chipStateOf (execs 30 [.activate 1 0 [] (some Signal.default) none] c1SeqStore) 1
      = some .active
    ∧ chipDeferredOf (execs 30 [.activate 1 0 [] (some Signal.default) none] c1SeqStore) 1
        = some none
    ∧ chipStateOf (execs 30 [.activate 1 0 [] (some Signal.default) none,
        .tick 1 1] c1SeqStore) 1 = some .inactive
    ∧ chipOutOf (execs 30 [.activate 1 0 [] (some Signal.default) none,
        .tick 1 1] c1SeqStore) 1 = some (some { name := "t" })
    ∧ chipDeferredOf (execs 30 [.activate 1 0 [] (some Signal.default) none,
        .tick 1 1] c1SeqStore) 1 = some none :=
  ⟨rfl, rfl, rfl, rfl, rfl⟩

end Booyah

/-! ## C2: the empty Parallel -/

namespace Booyah

/-- A `Parallel` constructed with no child specs and default options
(`terminateOnCompletion = true`). -/
def c2ParallelStore : Store :=
  { chips := [{ kind := .parallel {} [] [] 0 0 }] }

/-- C2 counterexample.  After `activate()` returns, the empty Parallel is
still `active` and its `outputSignal` is still unset — it was NOT
terminated during the `activate()` call itself (the self-`terminate` from
`Parallel._onActivate` ran while `_methodCallInProgress` was set and was
deferred). -/
theorem C2_counterexample :
    chipStateOf (execs 20 [.activate 0 0 [] (some Signal.default) none]
        c2ParallelStore) 0 = some .active
    ∧ chipOutOf (execs 20 [.activate 0 0 [] (some Signal.default) none]
        c2ParallelStore) 0 = some none :=
  ⟨rfl, rfl⟩

/-- C2 (amended).  Activating an empty Parallel with default options does
request termination, but the request is deferred: after `activate()` the
node is `active` with the default signal stored in
`_deferredOutputSignal`, and the node then terminates at the very start of
its first `tick`, with that default signal as its output signal. -/
theorem C2_empty_parallel :
    chipStateOf (execs 20 [.activate 0 0 [] (some Signal.default) none]
        c2ParallelStore) 0 = some .active
    ∧ chipDeferredOf (execs 20 [.activate 0 0 [] (some Signal.default) none]
        c2ParallelStore) 0 = some (some Signal.default)
    ∧ chipStateOf (execs 20 [.activate 0 0 [] (some Signal.default) none,
        .tick 0 1] c2ParallelStore) 0 = some .inactive
    ∧ chipOutOf (execs 20 [.activate 0 0 [] (some Signal.default) none,
        .tick 0 1] c2ParallelStore) 0 = some (some Signal.default) :=
  ⟨rfl, rfl, rfl, rfl⟩

end Booyah

/-! ## C3: the Alternative race -/

namespace Booyah

/-- An `Alternative` over a `Transitory` (terminates during its own
activation) and a `Forever` (never terminates), the first entry carrying
an optional explicit outcome signal. -/
def c3AltStore (sigOpt : Option Signal) : Store :=
  { chips := [
      { kind := .transitory { name := "t" } },
      { kind := .forever },
      { kind := .alternative [ { chip := .chipAddr 0, signal := sigOpt },
                               { chip := .chipAddr 1 } ] } ] }

/-- C3 counterexample.  Activating the Alternative does NOT immediately
terminate it: after `activate()` it is still `active` with no output
signal (the winning termination was deferred, because
`_onChildTerminated` ran inside the composite's own `activate()`). -/
theorem C3_counterexample :
    chipStateOf (execs 30 [.activate 2 0 [] (some Signal.default) none]
        (c3AltStore none)) 2 = some .active
    ∧ chipOutOf (execs 30 [.activate 2 0 [] (some Signal.default) none]
        (c3AltStore none)) 2 = some none :=
  ⟨rfl, rfl⟩

theorem alt_onChildTerminated {n : Nat} {st : Store} {a i : Nat}
    {infos : List AltInfo} {info : AltInfo} {c : ChipObj} (arg : Option Signal)
    (hget : getChip st a = .ok c) (hkind : c.kind = .alternative infos)
    (hinfo : infos.get? i = some info) :
    exec (n + 1) (.runCb (.altChildTerminated a i) arg) st
      = exec n (.terminate a (some (info.signal.getD { name := toString i }))) st := by
  rw [List.get?_eq_getElem?] at hinfo
  simp [exec, execCase, hget, except_bind_ok, hkind, hinfo]

/-- C3 (amended).  (i) In general, when an entry of an `Alternative`
terminates, the handler subscribed by `_onActivate` terminates the
Alternative with the entry's explicitly configured outcome signal or, when
none is configured, a signal named after the entry's positional index
(index 0 yields `"0"`); because the winning child terminates inside the
Alternative's own `activate()`, that termination is deferred.  (ii) On the
concrete two-entry race of the claim (first entry without a configured
signal), after `activate()` the Alternative is still `active` with the
index-derived signal `"0"` stored as the deferred termination, and on its
first `tick` it terminates with output signal `"0"`, the second
(never-terminating) child being terminated as a side effect. -/
theorem C3_alternative_outcome :
    (∀ (n : Nat) (st : Store) (a i : Nat) (infos : List AltInfo)
        (info : AltInfo) (c : ChipObj) (arg : Option Signal),
      getChip st a = .ok c → c.kind = .alternative infos →
      infos.get? i = some info →
      exec (n + 1) (.runCb (.altChildTerminated a i) arg) st
        = exec n (.terminate a
            (some (info.signal.getD { name := toString i }))) st)
    ∧ chipDeferredOf (execs 30 [.activate 2 0 [] (some Signal.default) none]
        (c3AltStore none)) 2 = some (some { name := "0" })
    ∧ chipStateOf (execs 30 [.activate 2 0 [] (some Signal.default) none,
        .tick 2 1] (c3AltStore none)) 2 = some .inactive
    ∧ chipOutOf (execs 30 [.activate 2 0 [] (some Signal.default) none,
        .tick 2 1] (c3AltStore none)) 2 = some (some { name := "0" })
    ∧ chipStateOf (execs 30 [.activate 2 0 [] (some Signal.default) none,
        .tick 2 1] (c3AltStore none)) 1 = some .inactive :=
  ⟨fun _ _ _ _ _ _ _ arg hg hk hi => alt_onChildTerminated arg hg hk hi,
   rfl, rfl, rfl, rfl⟩

/-- A one-chip Alternative with a configured outcome signal, for the C3
witness. -/
def c3WinInfo : AltInfo :=
  { chip := .chipAddr 0, signal := some { name := "win" } }

def c3WinChip : ChipObj :=
  { kind := .alternative [c3WinInfo], state := .active }

def c3WitnessStore : Store :=
  { chips := [ { kind := .forever }, c3WinChip ] }

theorem C3_alternative_outcome_witness :
    exec 9 (.runCb (.altChildTerminated 1 0) none) c3WitnessStore
      = exec 8 (.terminate 1 (some (c3WinInfo.signal.getD
          { name := toString 0 }))) c3WitnessStore :=
  C3_alternative_outcome.1 8 c3WitnessStore 1 0 [c3WinInfo] c3WinInfo
    c3WinChip none rfl rfl rfl

end Booyah

/-! ## C8: the composite guard on child operations -/

namespace Booyah

theorem activateChild_inactive {n : Nat} {st : Store} {a : Nat} {c : ChipObj}
    (r : Resolvable) (o : ActivateChildChipOptions)
    (hget : getChip st a = .ok c) (hstate : c.state = .inactive) :
    exec (n + 1) (.activateChildChip a r o) st = .error .compositeInactive := by
  simp [exec, execCase, hget, except_bind_ok, hstate]

theorem terminateChild_inactive {n : Nat} {st : Store} {a : Nat} {c : ChipObj}
    (chipAddr : Nat) (sig : Option Signal)
    (hget : getChip st a = .ok c) (hstate : c.state = .inactive) :
    exec (n + 1) (.terminateChildChip a chipAddr sig) st
      = .error .compositeInactive := by
  simp [exec, execCase, hget, except_bind_ok, hstate]

/-- C8 (amended).  `_activateChildChip` and `_terminateChildChip` fail with
`CompositeInactiveError` exactly when the composite's own state is
`inactive` — the guard `if (this.state === "inactive")` does not cover the
`paused` state, so both operations proceed on a paused composite (see the
counterexample). -/
theorem C8_composite_inactive_guard :
    (∀ (n : Nat) (st : Store) (a : Nat) (c : ChipObj) (r : Resolvable)
        (o : ActivateChildChipOptions),
      getChip st a = .ok c → c.state = .inactive →
      exec (n + 1) (.activateChildChip a r o) st = .error .compositeInactive)
    ∧ (∀ (n : Nat) (st : Store) (a : Nat) (c : ChipObj) (chipAddr : Nat)
        (sig : Option Signal),
      getChip st a = .ok c → c.state = .inactive →
      exec (n + 1) (.terminateChildChip a chipAddr sig) st
        = .error .compositeInactive) :=
  ⟨fun _ _ _ _ r o hg hs => activateChild_inactive r o hg hs,
   fun _ _ _ _ chipAddr sig hg hs => terminateChild_inactive chipAddr sig hg hs⟩

def c8InactiveStore : Store :=
  { chips := [ { kind := .parallel {} [] [] 0 0 } ] }

theorem C8_composite_inactive_guard_witness :
    exec 5 (.activateChildChip 0 (.chipAddr 0) {}) c8InactiveStore
      = .error .compositeInactive
    ∧ exec 5 (.terminateChildChip 0 0 none) c8InactiveStore
        = .error .compositeInactive :=
  ⟨C8_composite_inactive_guard.1 4 c8InactiveStore 0
      { kind := .parallel {} [] [] 0 0 } (.chipAddr 0) {} rfl rfl,
   C8_composite_inactive_guard.2 4 c8InactiveStore 0
      { kind := .parallel {} [] [] 0 0 } 0 none rfl rfl⟩

/-- A running `Parallel` over one `Forever`, with a second `Forever` to be
added while the Parallel is paused. -/
def c8Store : Store :=
  { chips := [
      { kind := .forever },
      { kind := .forever },
      { kind := .parallel {} [(0, { chip := .chipAddr 0 })] [] 0 1 } ] }

/-- C8 counterexample.  Activating, pausing and then adding a child to the
Parallel (which routes through `_activateChildChip` while the composite is
`paused`) raises no `CompositeInactiveError`: the run succeeds, the
composite is still `paused`, and the freshly added child was activated. -/
theorem C8_counterexample :
    chipStateOf (execs 30 [.activate 2 0 [] (some Signal.default) none,
        .pause 2, .parallelAddChildChip 2 { chip := .chipAddr 1 }] c8Store) 2
      = some .paused
    ∧ chipStateOf (execs 30 [.activate 2 0 [] (some Signal.default) none,
        .pause 2, .parallelAddChildChip 2 { chip := .chipAddr 1 }] c8Store) 1
      = some .active :=
  ⟨rfl, rfl⟩

end Booyah

/-! ## C9: Queue.next on a factory-built item -/

namespace Booyah

/-- A `Queue` to which a factory resolvable is added. -/
def c9Store : Store := { chips := [ { kind := .queue [] 0 } ] }

/-- C9.  After one tick the queue has wrapped the factory item in a
sequence and activated it (the factory-built chip, at address 3, is
`active` and `running`).  Calling `next()` then resolves the factory AGAIN
— building a brand-new chip (address 4, `inactive`) — and calls
`terminate()` on that fresh chip instead of the running one, which throws
`InvalidStateError` (`terminate() called from state inactive`) and leaves
the running node untouched. -/
theorem C9_queue_next_factory :
    chipStateOf (execs 30 [.activate 0 0 [] (some Signal.default) none,
        .queueAdd 0 (.factory .mkForever) none, .tick 0 1] c9Store) 3
      = some .active
    ∧ execs 30 [.activate 0 0 [] (some Signal.default) none,
        .queueAdd 0 (.factory .mkForever) none, .tick 0 1, .queueNext 0] c9Store
      = .error (.invalidState "terminate" .inactive) :=
  ⟨rfl, rfl⟩

end Booyah

/-! ## C4: StateMachine signal routing -/

namespace Booyah

theorem smUnpack_self (s : Signal) : smUnpack s s = s := by
  unfold smUnpack
  split <;> rfl

theorem smComputeNextState_fallback (transitions : List (String × SignalDescriptor))
    (stateNames : List String) (endingStates : Option (List String))
    (ctx : Ctx) (lastSignalName : String) (s : Signal)
    (hnone : assocFind transitions lastSignalName = none)
    (hin : stateNames.contains s.name
      ∨ (endingStates.getD []).contains s.name) :
    smComputeNextState transitions stateNames endingStates ctx lastSignalName s
      = .ok s := by
  unfold smComputeNextState
  rw [hnone]
  rw [if_pos (by simpa using hin), smUnpack_self]

theorem smComputeNextState_fatal (transitions : List (String × SignalDescriptor))
    (stateNames : List String) (endingStates : Option (List String))
    (ctx : Ctx) (lastSignalName : String) (s : Signal)
    (hnone : assocFind transitions lastSignalName = none)
    (hout1 : stateNames.contains s.name = false)
    (hout2 : (endingStates.getD []).contains s.name = false) :
    smComputeNextState transitions stateNames endingStates ctx lastSignalName s
      = .error (.unknownSignal s.name) := by
  unfold smComputeNextState
  rw [hnone]
  rw [if_neg (by rw [hout1, hout2]; simp)]

/-- Apply a `SignalDescriptor` as `_onAfterTick` does: a literal signal is
used as-is, a function is applied to `(context, signal)`. -/
def applySignalDescriptor (sd : SignalDescriptor) (ctx : Ctx) (s : Signal) : Signal :=
  match sd with
  | .sig t => t
  | .fn f => f ctx s

theorem smComputeNextState_table (transitions : List (String × SignalDescriptor))
    (stateNames : List String) (endingStates : Option (List String))
    (ctx : Ctx) (lastSignalName : String) (s : Signal)
    (sd : SignalDescriptor)
    (hsome : assocFind transitions lastSignalName = some sd) :
    smComputeNextState transitions stateNames endingStates ctx lastSignalName s
      = .ok (smUnpack (applySignalDescriptor sd ctx s) s) := by
  cases sd with
  | sig t => simp [smComputeNextState, applySignalDescriptor, hsome]
  | fn f => simp [smComputeNextState, applySignalDescriptor, hsome]

/-- Projection of a StateMachine's `visitedStates` history. -/
def smVisitedOf (r : Except Err Store) (a : Nat) : Option (List Signal) :=
  match r with
  | .error _ => none
  | .ok st =>
    match st.chips.get? a with
    | none => none
    | some c =>
      match c.kind with
      | .stateMachine _ _ _ _ v _ _ => some v
      | _ => none

/-- A machine whose single state `start` runs a `Transitory` that
terminates with signal `end` carrying params; `end` is a declared ending
state and the transition table is empty. -/
def c4Store : Store :=
  { chips := [
      { kind := .transitory { name := "end", params := [("k", "v")] } },
      { kind := .stateMachine [("start", { chip := .chipAddr 0 })] []
          (.sig { name := "start" }) (some ["end"]) [] none none } ] }

/-- The same machine, but the child terminates with a signal naming
neither a state nor an ending state. -/
def c4BadStore : Store :=
  { chips := [
      { kind := .transitory { name := "nowhere" } },
      { kind := .stateMachine [("start", { chip := .chipAddr 0 })] []
          (.sig { name := "start" }) (some ["end"]) [] none none } ] }

/-- C4.  Signal routing of the StateMachine.  (i) When the previously
active state's name has no entry in the transition table and the
terminating signal `s` names a declared state or a declared ending state,
`s` itself routes (the params-unpacking step collapses to `s`);
(ii) when it names neither, routing is a fatal `Cannot find signal` error;
(iii) when the previous state has a transition-table entry, that entry (a
literal signal or a function of `(context, s)`) determines the next state,
with `s.params` substituted when the resulting descriptor carries no
params (`smUnpack`); (iv) on the concrete machine `c4Store`, reaching the
declared ending state `end` terminates the whole machine with a signal of
the same name carrying `s`'s params instead of activating a child (exactly
one child was ever activated), and `visitedStates` is `[start, end]` in
order; (v) on `c4BadStore` the unknown name makes the machine throw.  -/
theorem C4_stateMachine_routing :
    (∀ (transitions : List (String × SignalDescriptor))
        (stateNames : List String) (endingStates : Option (List String))
        (ctx : Ctx) (lastSignalName : String) (s : Signal),
      assocFind transitions lastSignalName = none →
      (stateNames.contains s.name ∨ (endingStates.getD []).contains s.name) →
      smComputeNextState transitions stateNames endingStates ctx lastSignalName s
        = .ok s)
    ∧ (∀ (transitions : List (String × SignalDescriptor))
        (stateNames : List String) (endingStates : Option (List String))
        (ctx : Ctx) (lastSignalName : String) (s : Signal),
      assocFind transitions lastSignalName = none →
      stateNames.contains s.name = false →
      (endingStates.getD []).contains s.name = false →
      smComputeNextState transitions stateNames endingStates ctx lastSignalName s
        = .error (.unknownSignal s.name))
    ∧ (∀ (transitions : List (String × SignalDescriptor))
        (stateNames : List String) (endingStates : Option (List String))
        (ctx : Ctx) (lastSignalName : String) (s : Signal)
        (sd : SignalDescriptor),
      assocFind transitions lastSignalName = some sd →
      smComputeNextState transitions stateNames endingStates ctx lastSignalName s
        = .ok (smUnpack (applySignalDescriptor sd ctx s) s))
    ∧ (∀ (d s : Signal), d.params.isEmpty = true →
        smUnpack d s = { name := d.name, params := s.params })
    ∧ chipStateOf (execs 30 [.activate 1 0 [] (some Signal.default) none,
        .tick 1 1] c4Store) 1 = some .inactive
    ∧ chipOutOf (execs 30 [.activate 1 0 [] (some Signal.default) none,
        .tick 1 1] c4Store) 1
      = some (some { name := "end", params := [("k", "v")] })
    ∧ smVisitedOf (execs 30 [.activate 1 0 [] (some Signal.default) none,
        .tick 1 1] c4Store) 1
      = some [{ name := "start" }, { name := "end", params := [("k", "v")] }]
    ∧ (traceOf (execs 30 [.activate 1 0 [] (some Signal.default) none,
        .tick 1 1] c4Store)).map
        (fun t => (t.filter (fun p => p = (1, "activatedChildChip"))).length)
      = some 1
    ∧ execs 30 [.activate 1 0 [] (some Signal.default) none, .tick 1 1] c4BadStore
      = .error (.unknownSignal "nowhere") := by
  refine ⟨?_, ?_, ?_, ?_, ?_, ?_, ?_, ?_, ?_⟩
  · exact fun transitions stateNames endingStates ctx ls s hn hin =>
      smComputeNextState_fallback transitions stateNames endingStates ctx ls s hn hin
  · exact fun transitions stateNames endingStates ctx ls s hn h1 h2 =>
      smComputeNextState_fatal transitions stateNames endingStates ctx ls s hn h1 h2
  · exact fun transitions stateNames endingStates ctx ls s sd hs =>
      smComputeNextState_table transitions stateNames endingStates ctx ls s sd hs
  · exact fun d s hd => by unfold smUnpack; rw [if_pos hd]
  · rfl
  · rfl
  · rfl
  · rfl
  · rfl

theorem C4_stateMachine_routing_witness :
    smComputeNextState [] ["a"] (some ["end"]) [] "start" { name := "a" }
      = .ok { name := "a" }
    ∧ smComputeNextState [] ["a"] (some ["end"]) [] "start" { name := "zz" }
      = .error (.unknownSignal "zz")
    ∧ smComputeNextState [("start", .sig { name := "a" })] ["a"] none []
        "start" { name := "whatever", params := [("p", "q")] }
      = .ok (smUnpack { name := "a" } { name := "whatever", params := [("p", "q")] })
    ∧ smUnpack { name := "a" } { name := "b", params := [("p", "q")] }
      = { name := "a", params := [("p", "q")] } :=
  ⟨C4_stateMachine_routing.1 [] ["a"] (some ["end"]) [] "start" { name := "a" }
      rfl (Or.inl rfl),
   C4_stateMachine_routing.2.1 [] ["a"] (some ["end"]) [] "start" { name := "zz" }
      rfl rfl rfl,
   C4_stateMachine_routing.2.2.1 [("start", .sig { name := "a" })] ["a"] none []
      "start" { name := "whatever", params := [("p", "q")] } (.sig { name := "a" }) rfl,
   C4_stateMachine_routing.2.2.2.1 { name := "a" } { name := "b", params := [("p", "q")] } rfl⟩

end Booyah

/-! ## C5: a Sequence over two Wait children -/

namespace Booyah

/-- One unfolding of the fuelled interpreter. -/
theorem exec_succ (n : Nat) (a : Action) (st : Store) :
    exec (n + 1) a st = execCase (exec n) a st := rfl

abbrev c5Store (d1 d2 : Nat) : Store :=
  { chips := [
      { kind := .wait d1 0 },
      { kind := .wait d2 0 },
      { kind := .seq {} [{ chip := .chipAddr 0 }, { chip := .chipAddr 1 }] 0 none } ] }

abbrev c5A1 (d1 d2 : Nat) : Store :=
  { chips := [
      { kind := .wait d1 0 },
      { kind := .wait d2 0 },
      { kind := .seq {} [{ chip := .chipAddr 0 }, { chip := .chipAddr 1 }] 0 none,
        methodCallInProgress := true } ] }

abbrev c5T0 (d1 d2 : Nat) : Store :=
  { chips := [
      { kind := .wait d1 0 },
      { kind := .wait d2 0 },
      { kind := .seq {} [{ chip := .chipAddr 0 }, { chip := .chipAddr 1 }] 0 none,
        state := .active, outputSignal := none, chipContext := [],
        lastTickInfo := 0, inputSignal := some Signal.default,
        methodCallInProgress := true } ] }

abbrev c5T3 (d1 d2 : Nat) : Store :=
  { chips := [
      { kind := .wait d1 0, state := .active, outputSignal := none,
        chipContext := [], lastTickInfo := 0, inputSignal := some Signal.default,
        eventListeners := [⟨.windowE, "resize", .resizeCb 0⟩] },
      { kind := .wait d2 0 },
      { kind := .seq {} [{ chip := .chipAddr 0 }, { chip := .chipAddr 1 }] 0 none,
        state := .active, outputSignal := none, chipContext := [],
        lastTickInfo := 0, inputSignal := some Signal.default,
        childChips := [("1", 0)], methodCallInProgress := true } ],
    windowReg := [⟨"resize", false, .resizeCb 0⟩],
    trace := [(2, "beforeActivatedChildChip"), (0, "resized"), (0, "activated"),
      (2, "activatedChildChip")],
    counter := 0 }

abbrev c5T3cur (d1 d2 : Nat) : Store :=
  { chips := [
      { kind := .wait d1 0, state := .active, outputSignal := none,
        chipContext := [], lastTickInfo := 0, inputSignal := some Signal.default,
        eventListeners := [⟨.windowE, "resize", .resizeCb 0⟩] },
      { kind := .wait d2 0 },
      { kind := .seq {} [{ chip := .chipAddr 0 }, { chip := .chipAddr 1 }] 0 (some 0),
        state := .active, outputSignal := none, chipContext := [],
        lastTickInfo := 0, inputSignal := some Signal.default,
        childChips := [("1", 0)], methodCallInProgress := true } ],
    windowReg := [⟨"resize", false, .resizeCb 0⟩],
    trace := [(2, "beforeActivatedChildChip"), (0, "resized"), (0, "activated"),
      (2, "activatedChildChip")],
    counter := 0 }

abbrev c5MidAf (d1 d2 : Nat) : Store :=
  { chips := [
      { kind := .wait d1 0, state := .active, outputSignal := none,
        chipContext := [], lastTickInfo := 0, inputSignal := some Signal.default,
        eventListeners := [⟨.windowE, "resize", .resizeCb 0⟩] },
      { kind := .wait d2 0 },
      { kind := .seq {} [{ chip := .chipAddr 0 }, { chip := .chipAddr 1 }] 0 (some 0),
        state := .active, outputSignal := none, chipContext := [],
        lastTickInfo := 0, inputSignal := some Signal.default,
        eventListeners := [⟨.windowE, "resize", .resizeCb 2⟩],
        childChips := [("1", 0)], methodCallInProgress := true } ],
    windowReg := [⟨"resize", false, .resizeCb 0⟩, ⟨"resize", false, .resizeCb 2⟩],
    trace := [(2, "beforeActivatedChildChip"), (0, "resized"), (0, "activated"),
      (2, "activatedChildChip"), (2, "resized"), (2, "activated")],
    counter := 0 }

abbrev c5MidA (d1 d2 : Nat) : Store :=
  { chips := [
      { kind := .wait d1 0, state := .active, outputSignal := none,
        chipContext := [], lastTickInfo := 0, inputSignal := some Signal.default,
        eventListeners := [⟨.windowE, "resize", .resizeCb 0⟩] },
      { kind := .wait d2 0 },
      { kind := .seq {} [{ chip := .chipAddr 0 }, { chip := .chipAddr 1 }] 0 (some 0),
        state := .active, outputSignal := none, chipContext := [],
        lastTickInfo := 0, inputSignal := some Signal.default,
        eventListeners := [⟨.windowE, "resize", .resizeCb 2⟩],
        childChips := [("1", 0)], isReady := true } ],
    windowReg := [⟨"resize", false, .resizeCb 0⟩, ⟨"resize", false, .resizeCb 2⟩],
    trace := [(2, "beforeActivatedChildChip"), (0, "resized"), (0, "activated"),
      (2, "activatedChildChip"), (2, "resized"), (2, "activated")],
    counter := 0 }

theorem c5_A_ac (n d1 d2 : Nat) :
    exec (n + 6) (.activateChildChip 2 (.chipAddr 0) { id := some "1" })
      (c5T0 d1 d2) = .ok (c5T3 d1 d2, some 0) := rfl

set_option maxHeartbeats 1000000 in
theorem c5_A_sw (n d1 d2 : Nat) :
    exec (n + 7) (.switchChip 2) (c5T0 d1 d2) = .ok (c5T3cur d1 d2, none) := by
  have ht : (toString (1 : Nat)) = "1" := rfl
  simp only [exec_succ]
  simp [execCase, getChip, setChip, modifyChip, assocFind, ret,
    ChipInfo.toActivateChildChipOptions, ht, c5_A_ac, except_bind_ok,
    except_bind_err, except_pure]

set_option maxHeartbeats 1000000 in
theorem c5_A_onact (n d1 d2 : Nat) :
    exec (n + 8) (.onActivate 2) (c5T0 d1 d2) = .ok (c5T3cur d1 d2, none) := by
  simp only [exec_succ]
  simp [execCase, getChip, setChip, modifyChip, assocFind, ret, c5_A_sw,
    except_bind_ok, except_bind_err, except_pure]

set_option maxHeartbeats 2000000 in
theorem c5_A_base (n d1 d2 : Nat) :
    exec (n + 9) (.baseActivate 2 0 [] (some Signal.default) none) (c5A1 d1 d2)
      = .ok (c5MidAf d1 d2, none) := by
  simp only [exec_succ]
  simp [execCase, getChip, setChip, modifyChip, subscribe, ret, c5_A_onact,
    except_bind_ok, except_bind_err, except_pure]
  simp only [exec_succ]
  simp [execCase, getChip, setChip, modifyChip, subscribe, ret,
    except_bind_ok, except_bind_err, except_pure]
  simp only [exec_succ]
  simp [execCase, getChip, setChip, modifyChip, subscribe, ret,
    except_bind_ok, except_bind_err, except_pure]
  simp only [exec_succ]
  simp [execCase, getChip, setChip, modifyChip, subscribe, ret,
    except_bind_ok, except_bind_err, except_pure]

set_option maxHeartbeats 2000000 in
theorem c5_A (n d1 d2 : Nat) :
    exec (n + 10) (.activate 2 0 [] (some Signal.default) none) (c5Store d1 d2)
      = .ok (c5MidA d1 d2, none) := by
  simp only [exec_succ]
  simp [execCase, getChip, setChip, modifyChip, ret, Kind.isComposite, c5_A_base,
    except_bind_ok, except_bind_err, except_pure]

abbrev c5MB0 (d1 d2 : Nat) : Store :=
  { chips := [
      { kind := .wait d1 0, state := .active, outputSignal := none,
        chipContext := [], lastTickInfo := 0, inputSignal := some Signal.default,
        eventListeners := [⟨.windowE, "resize", .resizeCb 0⟩] },
      { kind := .wait d2 0 },
      { kind := .seq {} [{ chip := .chipAddr 0 }, { chip := .chipAddr 1 }] 0 (some 0),
        state := .active, outputSignal := none, chipContext := [],
        lastTickInfo := d1, inputSignal := some Signal.default,
        eventListeners := [⟨.windowE, "resize", .resizeCb 2⟩],
        childChips := [("1", 0)], methodCallInProgress := true, isReady := true } ],
    windowReg := [⟨"resize", false, .resizeCb 0⟩, ⟨"resize", false, .resizeCb 2⟩],
    trace := [(2, "beforeActivatedChildChip"), (0, "resized"), (0, "activated"),
      (2, "activatedChildChip"), (2, "resized"), (2, "activated")],
    counter := 0 }

abbrev c5MB1 (d1 d2 : Nat) : Store :=
  { chips := [
      { kind := .wait d1 d1, state := .active, outputSignal := none,
        chipContext := [], lastTickInfo := d1, inputSignal := some Signal.default,
        eventListeners := [⟨.windowE, "resize", .resizeCb 0⟩] },
      { kind := .wait d2 0 },
      { kind := .seq {} [{ chip := .chipAddr 0 }, { chip := .chipAddr 1 }] 0 (some 0),
        state := .active, outputSignal := none, chipContext := [],
        lastTickInfo := d1, inputSignal := some Signal.default,
        eventListeners := [⟨.windowE, "resize", .resizeCb 2⟩],
        childChips := [("1", 0)], methodCallInProgress := true, isReady := true } ],
    windowReg := [⟨"resize", false, .resizeCb 0⟩, ⟨"resize", false, .resizeCb 2⟩],
    trace := [(2, "beforeActivatedChildChip"), (0, "resized"), (0, "activated"),
      (2, "activatedChildChip"), (2, "resized"), (2, "activated")],
    counter := 0 }

abbrev c5MB2 (d1 d2 : Nat) : Store :=
  { chips := [
      { kind := .wait d1 d1, state := .inactive, outputSignal := some Signal.default,
        chipContext := [], lastTickInfo := d1, inputSignal := some Signal.default },
      { kind := .wait d2 0 },
      { kind := .seq {} [{ chip := .chipAddr 0 }, { chip := .chipAddr 1 }] 0 (some 0),
        state := .active, outputSignal := none, chipContext := [],
        lastTickInfo := d1, inputSignal := some Signal.default,
        eventListeners := [⟨.windowE, "resize", .resizeCb 2⟩],
        childChips := [("1", 0)], methodCallInProgress := true, isReady := true } ],
    windowReg := [⟨"resize", false, .resizeCb 2⟩],
    trace := [(2, "beforeActivatedChildChip"), (0, "resized"), (0, "activated"),
      (2, "activatedChildChip"), (2, "resized"), (2, "activated"), (0, "terminated")],
    counter := 0 }

abbrev c5MB3 (d1 d2 : Nat) : Store :=
  { chips := [
      { kind := .wait d1 d1, state := .inactive, outputSignal := some Signal.default,
        chipContext := [], lastTickInfo := d1, inputSignal := some Signal.default },
      { kind := .wait d2 0 },
      { kind := .seq {} [{ chip := .chipAddr 0 }, { chip := .chipAddr 1 }] 0 (some 0),
        state := .active, outputSignal := none, chipContext := [],
        lastTickInfo := d1, inputSignal := some Signal.default,
        eventListeners := [⟨.windowE, "resize", .resizeCb 2⟩],
        childChips := [], methodCallInProgress := true, isReady := true } ],
    windowReg := [⟨"resize", false, .resizeCb 2⟩],
    trace := [(2, "beforeActivatedChildChip"), (0, "resized"), (0, "activated"),
      (2, "activatedChildChip"), (2, "resized"), (2, "activated"), (0, "terminated"),
      (2, "terminatedChildChip")],
    counter := 0 }

abbrev c5MB4 (d1 d2 : Nat) : Store :=
  { chips := [
      { kind := .wait d1 d1, state := .inactive, outputSignal := some Signal.default,
        chipContext := [], lastTickInfo := d1, inputSignal := some Signal.default },
      { kind := .wait d2 0 },
      { kind := .seq {} [{ chip := .chipAddr 0 }, { chip := .chipAddr 1 }] 0 (some 0),
        state := .active, outputSignal := none, chipContext := [],
        lastTickInfo := d1, inputSignal := some Signal.default,
        eventListeners := [⟨.windowE, "resize", .resizeCb 2⟩],
        childChips := [], isReady := true } ],
    windowReg := [⟨"resize", false, .resizeCb 2⟩],
    trace := [(2, "beforeActivatedChildChip"), (0, "resized"), (0, "activated"),
      (2, "activatedChildChip"), (2, "resized"), (2, "activated"), (0, "terminated"),
      (2, "terminatedChildChip")],
    counter := 0 }

abbrev c5MB5pre (d1 d2 : Nat) : Store :=
  { chips := [
      { kind := .wait d1 d1, state := .inactive, outputSignal := some Signal.default,
        chipContext := [], lastTickInfo := d1, inputSignal := some Signal.default },
      { kind := .wait d2 0 },
      { kind := .seq {} [{ chip := .chipAddr 0 }, { chip := .chipAddr 1 }] 1 (some 0),
        state := .active, outputSignal := none, chipContext := [],
        lastTickInfo := d1, inputSignal := some Signal.default,
        eventListeners := [⟨.windowE, "resize", .resizeCb 2⟩],
        childChips := [], isReady := true } ],
    windowReg := [⟨"resize", false, .resizeCb 2⟩],
    trace := [(2, "beforeActivatedChildChip"), (0, "resized"), (0, "activated"),
      (2, "activatedChildChip"), (2, "resized"), (2, "activated"), (0, "terminated"),
      (2, "terminatedChildChip")],
    counter := 0 }

abbrev c5Bsw (d1 d2 : Nat) : Store :=
  { chips := [
      { kind := .wait d1 d1, state := .inactive, outputSignal := some Signal.default,
        chipContext := [], lastTickInfo := d1, inputSignal := some Signal.default },
      { kind := .wait d2 0 },
      { kind := .seq {} [{ chip := .chipAddr 0 }, { chip := .chipAddr 1 }] 1 none,
        state := .active, outputSignal := none, chipContext := [],
        lastTickInfo := d1, inputSignal := some Signal.default,
        eventListeners := [⟨.windowE, "resize", .resizeCb 2⟩],
        childChips := [], isReady := true } ],
    windowReg := [⟨"resize", false, .resizeCb 2⟩],
    trace := [(2, "beforeActivatedChildChip"), (0, "resized"), (0, "activated"),
      (2, "activatedChildChip"), (2, "resized"), (2, "activated"), (0, "terminated"),
      (2, "terminatedChildChip")],
    counter := 0 }

abbrev c5BacOut (d1 d2 : Nat) : Store :=
  { chips := [
      { kind := .wait d1 d1, state := .inactive, outputSignal := some Signal.default,
        chipContext := [], lastTickInfo := d1, inputSignal := some Signal.default },
      { kind := .wait d2 0, state := .active, outputSignal := none,
        chipContext := [], lastTickInfo := d1, inputSignal := some Signal.default,
        eventListeners := [⟨.windowE, "resize", .resizeCb 1⟩] },
      { kind := .seq {} [{ chip := .chipAddr 0 }, { chip := .chipAddr 1 }] 1 none,
        state := .active, outputSignal := none, chipContext := [],
        lastTickInfo := d1, inputSignal := some Signal.default,
        eventListeners := [⟨.windowE, "resize", .resizeCb 2⟩],
        childChips := [("1", 1)], isReady := true } ],
    windowReg := [⟨"resize", false, .resizeCb 2⟩, ⟨"resize", false, .resizeCb 1⟩],
    trace := [(2, "beforeActivatedChildChip"), (0, "resized"), (0, "activated"),
      (2, "activatedChildChip"), (2, "resized"), (2, "activated"), (0, "terminated"),
      (2, "terminatedChildChip"), (2, "beforeActivatedChildChip"), (1, "resized"),
      (1, "activated"), (2, "activatedChildChip")],
    counter := 0 }

abbrev c5MidB (d1 d2 : Nat) : Store :=
  { chips := [
      { kind := .wait d1 d1, state := .inactive, outputSignal := some Signal.default,
        chipContext := [], lastTickInfo := d1, inputSignal := some Signal.default },
      { kind := .wait d2 0, state := .active, outputSignal := none,
        chipContext := [], lastTickInfo := d1, inputSignal := some Signal.default,
        eventListeners := [⟨.windowE, "resize", .resizeCb 1⟩] },
      { kind := .seq {} [{ chip := .chipAddr 0 }, { chip := .chipAddr 1 }] 1 (some 1),
        state := .active, outputSignal := none, chipContext := [],
        lastTickInfo := d1, inputSignal := some Signal.default,
        eventListeners := [⟨.windowE, "resize", .resizeCb 2⟩],
        childChips := [("1", 1)], isReady := true } ],
    windowReg := [⟨"resize", false, .resizeCb 2⟩, ⟨"resize", false, .resizeCb 1⟩],
    trace := [(2, "beforeActivatedChildChip"), (0, "resized"), (0, "activated"),
      (2, "activatedChildChip"), (2, "resized"), (2, "activated"), (0, "terminated"),
      (2, "terminatedChildChip"), (2, "beforeActivatedChildChip"), (1, "resized"),
      (1, "activated"), (2, "activatedChildChip")],
    counter := 0 }

abbrev c5MB0f (d1 d2 : Nat) : Store :=
  { chips := [
      { kind := .wait d1 0, state := .active, outputSignal := none,
        chipContext := [], lastTickInfo := 0, inputSignal := some Signal.default,
        eventListeners := [⟨.windowE, "resize", .resizeCb 0⟩] },
      { kind := .wait d2 0 },
      { kind := .seq {} [{ chip := .chipAddr 0 }, { chip := .chipAddr 1 }] 0 (some 0),
        state := .active, outputSignal := none, chipContext := [],
        lastTickInfo := d1, inputSignal := some Signal.default,
        eventListeners := [⟨.windowE, "resize", .resizeCb 2⟩],
        childChips := [("1", 0)], isReady := true } ],
    windowReg := [⟨"resize", false, .resizeCb 0⟩, ⟨"resize", false, .resizeCb 2⟩],
    trace := [(2, "beforeActivatedChildChip"), (0, "resized"), (0, "activated"),
      (2, "activatedChildChip"), (2, "resized"), (2, "activated")],
    counter := 0 }

theorem c5_B_term0 (n d1 d2 : Nat) :
    exec (n + 3) (.terminate 0 none) (c5MB1 d1 d2) = .ok (c5MB2 d1 d2, none) := rfl

set_option maxHeartbeats 1000000 in
theorem c5_B_tick0 (n d1 d2 : Nat) :
    exec (n + 5) (.tick 0 d1) (c5MB0 d1 d2) = .ok (c5MB2 d1 d2, none) := by
  simp only [exec_succ]
  simp [execCase, getChip, setChip, modifyChip, ret, Kind.isComposite, c5_B_term0,
    except_bind_ok, except_bind_err, except_pure]
  simp only [exec_succ]
  simp [execCase, getChip, setChip, modifyChip, ret, c5_B_term0,
    except_bind_ok, except_bind_err, except_pure]

set_option maxHeartbeats 2000000 in
theorem c5_B_tcc (n d1 d2 : Nat) :
    exec (n + 7) (.tickChildChips 2) (c5MB0 d1 d2) = .ok (c5MB3 d1 d2, none) := by
  simp only [exec_succ]
  simp [execCase, getChip, setChip, modifyChip, ret, objValues, objKeys, objOrder,
    objDel, insertByIndex, isArrayIndexKey, strToNat, assocFind, c5_B_tick0,
    except_bind_ok, except_bind_err, except_pure]
  simp only [exec_succ]
  simp [execCase, getChip, setChip, modifyChip, ret, objValues, objKeys, objOrder,
    objDel, insertByIndex, isArrayIndexKey, strToNat, assocFind, c5_B_tick0,
    except_bind_ok, except_bind_err, except_pure]
  simp only [exec_succ]
  simp [execCase, getChip, setChip, modifyChip, ret, objValues, objKeys, objOrder,
    objDel, insertByIndex, isArrayIndexKey, strToNat, assocFind,
    except_bind_ok, except_bind_err, except_pure]
  simp only [exec_succ]
  simp [execCase, getChip, setChip, modifyChip, ret, objValues, objKeys, objOrder,
    objDel, insertByIndex, isArrayIndexKey, strToNat, assocFind,
    except_bind_ok, except_bind_err, except_pure]
  simp only [exec_succ]
  simp [execCase, getChip, setChip, modifyChip, ret,
    except_bind_ok, except_bind_err, except_pure]

theorem c5_B_ac (n d1 d2 : Nat) :
    exec (n + 6) (.activateChildChip 2 (.chipAddr 1) { id := some "1" })
      (c5Bsw d1 d2) = .ok (c5BacOut d1 d2, some 1) := rfl

set_option maxHeartbeats 1000000 in
theorem c5_B_sw (n d1 d2 : Nat) :
    exec (n + 7) (.switchChip 2) (c5MB5pre d1 d2) = .ok (c5MidB d1 d2, none) := by
  have ht : (toString (1 : Nat)) = "1" := rfl
  simp only [exec_succ]
  simp [execCase, getChip, setChip, modifyChip, assocFind, ret,
    ChipInfo.toActivateChildChipOptions, ht, c5_B_ac, except_bind_ok,
    except_bind_err, except_pure]

set_option maxHeartbeats 1000000 in
theorem c5_B_adv (n d1 d2 : Nat) :
    exec (n + 8) (.advance 2 Signal.default) (c5MB4 d1 d2)
      = .ok (c5MidB d1 d2, none) := by
  simp only [exec_succ]
  simp [execCase, getChip, setChip, modifyChip, ret, c5_B_sw,
    except_bind_ok, except_bind_err, except_pure]

set_option maxHeartbeats 2000000 in
theorem c5_B (n d1 d2 : Nat) :
    exec (n + 11) (.tick 2 d1) (c5MidA d1 d2) = .ok (c5MidB d1 d2, none) := by
  have hontick : ∀ (m : Nat), exec (m + 1) (.onTick 2) (c5MB0f d1 d2)
      = .ok (c5MB0f d1 d2, none) := fun m => rfl
  have honaft : ∀ (m : Nat), exec (m + 9) (.onAfterTick 2) (c5MB4 d1 d2)
      = .ok (c5MidB d1 d2, none) := by
    intro m
    simp only [exec_succ]
    simp [execCase, getChip, setChip, modifyChip, ret, c5_B_adv,
      except_bind_ok, except_bind_err, except_pure]
  simp only [exec_succ]
  simp [execCase, getChip, setChip, modifyChip, ret, Kind.isComposite,
    hontick, c5_B_tcc, honaft, except_bind_ok, except_bind_err, except_pure]

abbrev c5MC0f (d1 d2 : Nat) : Store :=
  { chips := [
      { kind := .wait d1 d1, state := .inactive, outputSignal := some Signal.default,
        chipContext := [], lastTickInfo := d1, inputSignal := some Signal.default },
      { kind := .wait d2 0, state := .active, outputSignal := none,
        chipContext := [], lastTickInfo := d1, inputSignal := some Signal.default,
        eventListeners := [⟨.windowE, "resize", .resizeCb 1⟩] },
      { kind := .seq {} [{ chip := .chipAddr 0 }, { chip := .chipAddr 1 }] 1 (some 1),
        state := .active, outputSignal := none, chipContext := [],
        lastTickInfo := d2, inputSignal := some Signal.default,
        eventListeners := [⟨.windowE, "resize", .resizeCb 2⟩],
        childChips := [("1", 1)], isReady := true } ],
    windowReg := [⟨"resize", false, .resizeCb 2⟩, ⟨"resize", false, .resizeCb 1⟩],
    trace := [(2, "beforeActivatedChildChip"), (0, "resized"), (0, "activated"),
      (2, "activatedChildChip"), (2, "resized"), (2, "activated"), (0, "terminated"),
      (2, "terminatedChildChip"), (2, "beforeActivatedChildChip"), (1, "resized"),
      (1, "activated"), (2, "activatedChildChip")],
    counter := 0 }

abbrev c5MC0 (d1 d2 : Nat) : Store :=
  { chips := [
      { kind := .wait d1 d1, state := .inactive, outputSignal := some Signal.default,
        chipContext := [], lastTickInfo := d1, inputSignal := some Signal.default },
      { kind := .wait d2 0, state := .active, outputSignal := none,
        chipContext := [], lastTickInfo := d1, inputSignal := some Signal.default,
        eventListeners := [⟨.windowE, "resize", .resizeCb 1⟩] },
      { kind := .seq {} [{ chip := .chipAddr 0 }, { chip := .chipAddr 1 }] 1 (some 1),
        state := .active, outputSignal := none, chipContext := [],
        lastTickInfo := d2, inputSignal := some Signal.default,
        eventListeners := [⟨.windowE, "resize", .resizeCb 2⟩],
        childChips := [("1", 1)], methodCallInProgress := true, isReady := true } ],
    windowReg := [⟨"resize", false, .resizeCb 2⟩, ⟨"resize", false, .resizeCb 1⟩],
    trace := [(2, "beforeActivatedChildChip"), (0, "resized"), (0, "activated"),
      (2, "activatedChildChip"), (2, "resized"), (2, "activated"), (0, "terminated"),
      (2, "terminatedChildChip"), (2, "beforeActivatedChildChip"), (1, "resized"),
      (1, "activated"), (2, "activatedChildChip")],
    counter := 0 }

abbrev c5MC1 (d1 d2 : Nat) : Store :=
  { chips := [
      { kind := .wait d1 d1, state := .inactive, outputSignal := some Signal.default,
        chipContext := [], lastTickInfo := d1, inputSignal := some Signal.default },
      { kind := .wait d2 d2, state := .active, outputSignal := none,
        chipContext := [], lastTickInfo := d2, inputSignal := some Signal.default,
        eventListeners := [⟨.windowE, "resize", .resizeCb 1⟩] },
      { kind := .seq {} [{ chip := .chipAddr 0 }, { chip := .chipAddr 1 }] 1 (some 1),
        state := .active, outputSignal := none, chipContext := [],
        lastTickInfo := d2, inputSignal := some Signal.default,
        eventListeners := [⟨.windowE, "resize", .resizeCb 2⟩],
        childChips := [("1", 1)], methodCallInProgress := true, isReady := true } ],
    windowReg := [⟨"resize", false, .resizeCb 2⟩, ⟨"resize", false, .resizeCb 1⟩],
    trace := [(2, "beforeActivatedChildChip"), (0, "resized"), (0, "activated"),
      (2, "activatedChildChip"), (2, "resized"), (2, "activated"), (0, "terminated"),
      (2, "terminatedChildChip"), (2, "beforeActivatedChildChip"), (1, "resized"),
      (1, "activated"), (2, "activatedChildChip")],
    counter := 0 }

abbrev c5MC2 (d1 d2 : Nat) : Store :=
  { chips := [
      { kind := .wait d1 d1, state := .inactive, outputSignal := some Signal.default,
        chipContext := [], lastTickInfo := d1, inputSignal := some Signal.default },
      { kind := .wait d2 d2, state := .inactive, outputSignal := some Signal.default,
        chipContext := [], lastTickInfo := d2, inputSignal := some Signal.default },
      { kind := .seq {} [{ chip := .chipAddr 0 }, { chip := .chipAddr 1 }] 1 (some 1),
        state := .active, outputSignal := none, chipContext := [],
        lastTickInfo := d2, inputSignal := some Signal.default,
        eventListeners := [⟨.windowE, "resize", .resizeCb 2⟩],
        childChips := [("1", 1)], methodCallInProgress := true, isReady := true } ],
    windowReg := [⟨"resize", false, .resizeCb 2⟩],
    trace := [(2, "beforeActivatedChildChip"), (0, "resized"), (0, "activated"),
      (2, "activatedChildChip"), (2, "resized"), (2, "activated"), (0, "terminated"),
      (2, "terminatedChildChip"), (2, "beforeActivatedChildChip"), (1, "resized"),
      (1, "activated"), (2, "activatedChildChip"), (1, "terminated")],
    counter := 0 }

abbrev c5MC3 (d1 d2 : Nat) : Store :=
  { chips := [
      { kind := .wait d1 d1, state := .inactive, outputSignal := some Signal.default,
        chipContext := [], lastTickInfo := d1, inputSignal := some Signal.default },
      { kind := .wait d2 d2, state := .inactive, outputSignal := some Signal.default,
        chipContext := [], lastTickInfo := d2, inputSignal := some Signal.default },
      { kind := .seq {} [{ chip := .chipAddr 0 }, { chip := .chipAddr 1 }] 1 (some 1),
        state := .active, outputSignal := none, chipContext := [],
        lastTickInfo := d2, inputSignal := some Signal.default,
        eventListeners := [⟨.windowE, "resize", .resizeCb 2⟩],
        childChips := [], methodCallInProgress := true, isReady := true } ],
    windowReg := [⟨"resize", false, .resizeCb 2⟩],
    trace := [(2, "beforeActivatedChildChip"), (0, "resized"), (0, "activated"),
      (2, "activatedChildChip"), (2, "resized"), (2, "activated"), (0, "terminated"),
      (2, "terminatedChildChip"), (2, "beforeActivatedChildChip"), (1, "resized"),
      (1, "activated"), (2, "activatedChildChip"), (1, "terminated"),
      (2, "terminatedChildChip")],
    counter := 0 }

abbrev c5MC4 (d1 d2 : Nat) : Store :=
  { chips := [
      { kind := .wait d1 d1, state := .inactive, outputSignal := some Signal.default,
        chipContext := [], lastTickInfo := d1, inputSignal := some Signal.default },
      { kind := .wait d2 d2, state := .inactive, outputSignal := some Signal.default,
        chipContext := [], lastTickInfo := d2, inputSignal := some Signal.default },
      { kind := .seq {} [{ chip := .chipAddr 0 }, { chip := .chipAddr 1 }] 1 (some 1),
        state := .active, outputSignal := none, chipContext := [],
        lastTickInfo := d2, inputSignal := some Signal.default,
        eventListeners := [⟨.windowE, "resize", .resizeCb 2⟩],
        childChips := [], isReady := true } ],
    windowReg := [⟨"resize", false, .resizeCb 2⟩],
    trace := [(2, "beforeActivatedChildChip"), (0, "resized"), (0, "activated"),
      (2, "activatedChildChip"), (2, "resized"), (2, "activated"), (0, "terminated"),
      (2, "terminatedChildChip"), (2, "beforeActivatedChildChip"), (1, "resized"),
      (1, "activated"), (2, "activatedChildChip"), (1, "terminated"),
      (2, "terminatedChildChip")],
    counter := 0 }

abbrev c5MC5pre (d1 d2 : Nat) : Store :=
  { chips := [
      { kind := .wait d1 d1, state := .inactive, outputSignal := some Signal.default,
        chipContext := [], lastTickInfo := d1, inputSignal := some Signal.default },
      { kind := .wait d2 d2, state := .inactive, outputSignal := some Signal.default,
        chipContext := [], lastTickInfo := d2, inputSignal := some Signal.default },
      { kind := .seq {} [{ chip := .chipAddr 0 }, { chip := .chipAddr 1 }] 2 (some 1),
        state := .active, outputSignal := none, chipContext := [],
        lastTickInfo := d2, inputSignal := some Signal.default,
        eventListeners := [⟨.windowE, "resize", .resizeCb 2⟩],
        childChips := [], isReady := true } ],
    windowReg := [⟨"resize", false, .resizeCb 2⟩],
    trace := [(2, "beforeActivatedChildChip"), (0, "resized"), (0, "activated"),
      (2, "activatedChildChip"), (2, "resized"), (2, "activated"), (0, "terminated"),
      (2, "terminatedChildChip"), (2, "beforeActivatedChildChip"), (1, "resized"),
      (1, "activated"), (2, "activatedChildChip"), (1, "terminated"),
      (2, "terminatedChildChip")],
    counter := 0 }

abbrev c5MC6 (d1 d2 : Nat) : Store :=
  { chips := [
      { kind := .wait d1 d1, state := .inactive, outputSignal := some Signal.default,
        chipContext := [], lastTickInfo := d1, inputSignal := some Signal.default },
      { kind := .wait d2 d2, state := .inactive, outputSignal := some Signal.default,
        chipContext := [], lastTickInfo := d2, inputSignal := some Signal.default },
      { kind := .seq {} [{ chip := .chipAddr 0 }, { chip := .chipAddr 1 }] 2 none,
        state := .active, outputSignal := none, chipContext := [],
        lastTickInfo := d2, inputSignal := some Signal.default,
        eventListeners := [⟨.windowE, "resize", .resizeCb 2⟩],
        childChips := [], isReady := true } ],
    windowReg := [⟨"resize", false, .resizeCb 2⟩],
    trace := [(2, "beforeActivatedChildChip"), (0, "resized"), (0, "activated"),
      (2, "activatedChildChip"), (2, "resized"), (2, "activated"), (0, "terminated"),
      (2, "terminatedChildChip"), (2, "beforeActivatedChildChip"), (1, "resized"),
      (1, "activated"), (2, "activatedChildChip"), (1, "terminated"),
      (2, "terminatedChildChip")],
    counter := 0 }

abbrev c5Final (d1 d2 : Nat) : Store :=
  { chips := [
      { kind := .wait d1 d1, state := .inactive, outputSignal := some Signal.default,
        chipContext := [], lastTickInfo := d1, inputSignal := some Signal.default },
      { kind := .wait d2 d2, state := .inactive, outputSignal := some Signal.default,
        chipContext := [], lastTickInfo := d2, inputSignal := some Signal.default },
      { kind := .seq {} [{ chip := .chipAddr 0 }, { chip := .chipAddr 1 }] 2 none,
        state := .inactive, outputSignal := some Signal.default, chipContext := [],
        lastTickInfo := d2, inputSignal := some Signal.default,
        childChips := [] } ],
    windowReg := [],
    trace := [(2, "beforeActivatedChildChip"), (0, "resized"), (0, "activated"),
      (2, "activatedChildChip"), (2, "resized"), (2, "activated"), (0, "terminated"),
      (2, "terminatedChildChip"), (2, "beforeActivatedChildChip"), (1, "resized"),
      (1, "activated"), (2, "activatedChildChip"), (1, "terminated"),
      (2, "terminatedChildChip"), (2, "terminated")],
    counter := 0 }

theorem c5_C_term1 (n d1 d2 : Nat) :
    exec (n + 3) (.terminate 1 none) (c5MC1 d1 d2) = .ok (c5MC2 d1 d2, none) := rfl

set_option maxHeartbeats 1000000 in
theorem c5_C_tick1 (n d1 d2 : Nat) :
    exec (n + 5) (.tick 1 d2) (c5MC0 d1 d2) = .ok (c5MC2 d1 d2, none) := by
  simp only [exec_succ]
  simp [execCase, getChip, setChip, modifyChip, ret, Kind.isComposite, c5_C_term1,
    except_bind_ok, except_bind_err, except_pure]
  simp only [exec_succ]
  simp [execCase, getChip, setChip, modifyChip, ret, c5_C_term1,
    except_bind_ok, except_bind_err, except_pure]

set_option maxHeartbeats 2000000 in
theorem c5_C_tcc (n d1 d2 : Nat) :
    exec (n + 7) (.tickChildChips 2) (c5MC0 d1 d2) = .ok (c5MC3 d1 d2, none) := by
  simp only [exec_succ]
  simp [execCase, getChip, setChip, modifyChip, ret, objValues, objKeys, objOrder,
    objDel, insertByIndex, isArrayIndexKey, strToNat, assocFind, c5_C_tick1,
    except_bind_ok, except_bind_err, except_pure]
  simp only [exec_succ]
  simp [execCase, getChip, setChip, modifyChip, ret, objValues, objKeys, objOrder,
    objDel, insertByIndex, isArrayIndexKey, strToNat, assocFind, c5_C_tick1,
    except_bind_ok, except_bind_err, except_pure]
  simp only [exec_succ]
  simp [execCase, getChip, setChip, modifyChip, ret, objValues, objKeys, objOrder,
    objDel, insertByIndex, isArrayIndexKey, strToNat, assocFind,
    except_bind_ok, except_bind_err, except_pure]
  simp only [exec_succ]
  simp [execCase, getChip, setChip, modifyChip, ret, objValues, objKeys, objOrder,
    objDel, insertByIndex, isArrayIndexKey, strToNat, assocFind,
    except_bind_ok, except_bind_err, except_pure]
  simp only [exec_succ]
  simp [execCase, getChip, setChip, modifyChip, ret,
    except_bind_ok, except_bind_err, except_pure]

theorem c5_C_sw (n d1 d2 : Nat) :
    exec (n + 1) (.switchChip 2) (c5MC5pre d1 d2) = .ok (c5MC6 d1 d2, none) := rfl

theorem c5_C_term2 (n d1 d2 : Nat) :
    exec (n + 3) (.terminate 2 (some Signal.default)) (c5MC6 d1 d2)
      = .ok (c5Final d1 d2, none) := rfl

set_option maxHeartbeats 1000000 in
theorem c5_C_adv (n d1 d2 : Nat) :
    exec (n + 4) (.advance 2 Signal.default) (c5MC4 d1 d2)
      = .ok (c5Final d1 d2, none) := by
  simp only [exec_succ]
  simp [execCase, getChip, setChip, modifyChip, ret, c5_C_sw, c5_C_term2,
    except_bind_ok, except_bind_err, except_pure]

set_option maxHeartbeats 2000000 in
theorem c5_C (n d1 d2 : Nat) :
    exec (n + 8) (.tick 2 d2) (c5MidB d1 d2) = .ok (c5Final d1 d2, none) := by
  have hontick : ∀ (m : Nat), exec (m + 1) (.onTick 2) (c5MC0f d1 d2)
      = .ok (c5MC0f d1 d2, none) := fun m => rfl
  have honaft : ∀ (m : Nat), exec (m + 5) (.onAfterTick 2) (c5MC4 d1 d2)
      = .ok (c5Final d1 d2, none) := by
    intro m
    simp only [exec_succ]
    simp [execCase, getChip, setChip, modifyChip, ret, c5_C_adv,
      except_bind_ok, except_bind_err, except_pure]
  simp only [exec_succ]
  simp [execCase, getChip, setChip, modifyChip, ret, Kind.isComposite,
    hontick, c5_C_tcc, honaft, except_bind_ok, except_bind_err, except_pure]

set_option maxHeartbeats 1000000 in
/-- C5.  A Sequence over `[Wait d1, Wait d2]`, for every `d1` and `d2`
(and any sufficient fuel): activating it activates the first Wait, a tick
carrying a total elapsed time of `d1` makes the first child produce its
output signal, whereupon the Sequence terminates that child and activates
the second entry, and a further tick carrying `d2` completes the second
child and with it the whole Sequence — so ticking for a total of exactly
`d1 + d2` drives the Sequence to completion with exactly two
`activatedChildChip` notifications, and the Sequence's own output signal
equals the last child's output signal. -/
theorem C5_sequence_two_waits :
    (∀ (n d1 d2 : Nat),
      execs (n + 12) [.activate 2 0 [] (some Signal.default) none,
        .tick 2 d1, .tick 2 d2] (c5Store d1 d2) = .ok (c5Final d1 d2))
    ∧ (∀ (n d1 d2 : Nat),
      exec (n + 10) (.activate 2 0 [] (some Signal.default) none) (c5Store d1 d2)
        = .ok (c5MidA d1 d2, none))
    ∧ (∀ (n d1 d2 : Nat),
      exec (n + 11) (.tick 2 d1) (c5MidA d1 d2) = .ok (c5MidB d1 d2, none))
    ∧ (∀ (n d1 d2 : Nat),
      exec (n + 8) (.tick 2 d2) (c5MidB d1 d2) = .ok (c5Final d1 d2, none))
    ∧ (∀ (d1 d2 : Nat),
      ((c5MidA d1 d2).chips.get? 0).map (·.state) = some .active
      ∧ ((c5MidA d1 d2).trace.filter
          (fun p => p = (2, "activatedChildChip"))).length = 1)
    ∧ (∀ (d1 d2 : Nat),
      ((c5MidB d1 d2).chips.get? 0).map (·.state) = some .inactive
      ∧ ((c5MidB d1 d2).chips.get? 0).map (·.outputSignal)
          = some (some Signal.default)
      ∧ ((c5MidB d1 d2).chips.get? 1).map (·.state) = some .active
      ∧ ((c5MidB d1 d2).trace.filter
          (fun p => p = (2, "activatedChildChip"))).length = 2)
    ∧ (∀ (d1 d2 : Nat),
      ((c5Final d1 d2).chips.get? 2).map (·.state) = some .inactive
      ∧ ((c5Final d1 d2).chips.get? 2).map (·.outputSignal)
          = some (some Signal.default)
      ∧ ((c5Final d1 d2).chips.get? 2).map (·.outputSignal)
          = ((c5Final d1 d2).chips.get? 1).map (·.outputSignal)
      ∧ ((c5Final d1 d2).trace.filter
          (fun p => p = (2, "activatedChildChip"))).length = 2) := by
  refine ⟨?_, ?_, ?_, ?_, ?_, ?_, ?_⟩
  · intro n d1 d2
    simp [execs, c5_A, c5_B, c5_C]
  · exact fun n d1 d2 => c5_A n d1 d2
  · exact fun n d1 d2 => c5_B n d1 d2
  · exact fun n d1 d2 => c5_C n d1 d2
  · exact fun d1 d2 => ⟨rfl, rfl⟩
  · exact fun d1 d2 => ⟨rfl, rfl, rfl, rfl⟩
  · exact fun d1 d2 => ⟨rfl, rfl, rfl, rfl⟩

end Booyah

/-! ## C6: the activate-terminate-activate cycle, on the operational model -/

namespace Booyah

def c6ForeverStore : Store := { chips := [ { kind := .forever } ] }

def c6ParStore : Store :=
  { chips := [ { kind := .parallel { terminateOnCompletion := false } [] [] 0 0 } ] }

def c6TransitoryStore : Store := { chips := [ { kind := .transitory { name := "t" } } ] }

abbrev c6ForeverMid (t1 : Nat) (c1 : Ctx) (s1 : Option Signal) : Store :=
  { chips := [
      { kind := .forever, state := .active, outputSignal := none,
        chipContext := c1, lastTickInfo := t1, inputSignal := s1,
        eventListeners := [⟨.windowE, "resize", .resizeCb 0⟩] } ],
    windowReg := [⟨"resize", false, .resizeCb 0⟩],
    trace := [(0, "resized"), (0, "activated")],
    counter := 0 }

abbrev c6ForeverTerm (t1 : Nat) (c1 : Ctx) (s1 sg : Option Signal) : Store :=
  { chips := [
      { kind := .forever, state := .inactive,
        outputSignal := some (sg.getD Signal.default),
        chipContext := c1, lastTickInfo := t1, inputSignal := s1 } ],
    windowReg := [],
    trace := [(0, "resized"), (0, "activated"), (0, "terminated")],
    counter := 0 }

abbrev c6ForeverEnd (t2 : Nat) (c2 : Ctx) (s2 : Option Signal) : Store :=
  { chips := [
      { kind := .forever, state := .active, outputSignal := none,
        chipContext := c2, lastTickInfo := t2, inputSignal := s2,
        eventListeners := [⟨.windowE, "resize", .resizeCb 0⟩] } ],
    windowReg := [⟨"resize", false, .resizeCb 0⟩],
    trace := [(0, "resized"), (0, "activated"), (0, "terminated"),
      (0, "resized"), (0, "activated")],
    counter := 0 }

abbrev c6ParEnd (t2 : Nat) (c2 : Ctx) (s2 : Option Signal) : Store :=
  { chips := [
      { kind := .parallel { terminateOnCompletion := false } [] [] 0 0,
        state := .active, outputSignal := none,
        chipContext := c2, lastTickInfo := t2, inputSignal := s2,
        eventListeners := [⟨.windowE, "resize", .resizeCb 0⟩],
        isReady := true } ],
    windowReg := [⟨"resize", false, .resizeCb 0⟩],
    trace := [(0, "resized"), (0, "activated"), (0, "terminated"),
      (0, "resized"), (0, "activated")],
    counter := 0 }

theorem c6_act1 (n t1 : Nat) (c1 : Ctx) (s1 : Option Signal) :
    exec (n + 5) (.activate 0 t1 c1 s1 none) c6ForeverStore
      = .ok (c6ForeverMid t1 c1 s1, none) := rfl

theorem c6_term (n t1 : Nat) (c1 : Ctx) (s1 sg : Option Signal) :
    exec (n + 3) (.terminate 0 sg) (c6ForeverMid t1 c1 s1)
      = .ok (c6ForeverTerm t1 c1 s1 sg, none) := rfl

theorem c6_act2 (n t1 t2 : Nat) (c1 c2 : Ctx) (s1 s2 sg : Option Signal) :
    exec (n + 5) (.activate 0 t2 c2 s2 none) (c6ForeverTerm t1 c1 s1 sg)
      = .ok (c6ForeverEnd t2 c2 s2, none) := rfl

set_option maxHeartbeats 1000000 in
theorem c6_forever_run (n t1 t2 : Nat) (c1 c2 : Ctx) (s1 s2 sg : Option Signal) :
    execs (n + 5) [.activate 0 t1 c1 s1 none, .terminate 0 sg,
      .activate 0 t2 c2 s2 none] c6ForeverStore = .ok (c6ForeverEnd t2 c2 s2) := by
  simp [execs, c6_act1, c6_term, c6_act2]

set_option maxHeartbeats 1000000 in
theorem c6_forever_term (n t1 : Nat) (c1 : Ctx) (s1 sg : Option Signal) :
    execs (n + 5) [.activate 0 t1 c1 s1 none, .terminate 0 sg] c6ForeverStore
      = .ok (c6ForeverTerm t1 c1 s1 sg) := by
  simp [execs, c6_act1, c6_term]

theorem c6_forever_mid (n t1 : Nat) (c1 : Ctx) (s1 : Option Signal) :
    execs (n + 5) [.activate 0 t1 c1 s1 none] c6ForeverStore
      = .ok (c6ForeverMid t1 c1 s1) := by
  simp [execs, c6_act1]

abbrev c6ParMid (t1 : Nat) (c1 : Ctx) (s1 : Option Signal) : Store :=
  { chips := [
      { kind := .parallel { terminateOnCompletion := false } [] [] 0 0,
        state := .active, outputSignal := none,
        chipContext := c1, lastTickInfo := t1, inputSignal := s1,
        eventListeners := [⟨.windowE, "resize", .resizeCb 0⟩],
        isReady := true } ],
    windowReg := [⟨"resize", false, .resizeCb 0⟩],
    trace := [(0, "resized"), (0, "activated")],
    counter := 0 }

abbrev c6ParTerm (t1 : Nat) (c1 : Ctx) (s1 sg : Option Signal) : Store :=
  { chips := [
      { kind := .parallel { terminateOnCompletion := false } [] [] 0 0,
        state := .inactive, outputSignal := some (sg.getD Signal.default),
        chipContext := c1, lastTickInfo := t1, inputSignal := s1 } ],
    windowReg := [],
    trace := [(0, "resized"), (0, "activated"), (0, "terminated")],
    counter := 0 }

theorem c6_par_act1 (n t1 : Nat) (c1 : Ctx) (s1 : Option Signal) :
    exec (n + 6) (.activate 0 t1 c1 s1 none) c6ParStore
      = .ok (c6ParMid t1 c1 s1, none) := rfl

theorem c6_par_term (n t1 : Nat) (c1 : Ctx) (s1 sg : Option Signal) :
    exec (n + 4) (.terminate 0 sg) (c6ParMid t1 c1 s1)
      = .ok (c6ParTerm t1 c1 s1 sg, none) := rfl

theorem c6_par_act2 (n t1 t2 : Nat) (c1 c2 : Ctx) (s1 s2 sg : Option Signal) :
    exec (n + 6) (.activate 0 t2 c2 s2 none) (c6ParTerm t1 c1 s1 sg)
      = .ok (c6ParEnd t2 c2 s2, none) := rfl

set_option maxHeartbeats 1000000 in
theorem c6_par_run (n t1 t2 : Nat) (c1 c2 : Ctx) (s1 s2 sg : Option Signal) :
    execs (n + 6) [.activate 0 t1 c1 s1 none, .terminate 0 sg,
      .activate 0 t2 c2 s2 none] c6ParStore = .ok (c6ParEnd t2 c2 s2) := by
  simp [execs, c6_par_act1, c6_par_term, c6_par_act2]

set_option maxHeartbeats 1000000 in
/-- C6 (amended).  For a node whose activation does not terminate it — a
base chip with default hooks (`Forever`) and likewise a composite that
stays active after activation (an empty `Parallel` with
`terminateOnCompletion: false`, exercising the overridden
`Composite.activate`/`terminate`) — `activate` from inactive, then
`terminate`, then `activate` again with fresh tick info, context and
signal succeeds for every choice of those arguments, and the start of the
second `activate` resets `outputSignal` to `undefined`; after the
`activate; terminate` prefix the output signal is exactly the terminate
argument (defaulted to `new Signal()`), and after `activate` alone it is
still unset.  The claim's universal form over EVERY node fails for
self-terminating chips (see the counterexample). -/
theorem C6_lifecycle :
    (∀ (n t1 t2 : Nat) (c1 c2 : Ctx) (s1 s2 sg : Option Signal),
      execs (n + 5) [.activate 0 t1 c1 s1 none, .terminate 0 sg,
        .activate 0 t2 c2 s2 none] c6ForeverStore = .ok (c6ForeverEnd t2 c2 s2))
    ∧ (∀ (n t1 : Nat) (c1 : Ctx) (s1 sg : Option Signal),
      execs (n + 5) [.activate 0 t1 c1 s1 none, .terminate 0 sg] c6ForeverStore
        = .ok (c6ForeverTerm t1 c1 s1 sg))
    ∧ (∀ (n t1 : Nat) (c1 : Ctx) (s1 : Option Signal),
      execs (n + 5) [.activate 0 t1 c1 s1 none] c6ForeverStore
        = .ok (c6ForeverMid t1 c1 s1))
    ∧ (∀ (n t1 t2 : Nat) (c1 c2 : Ctx) (s1 s2 sg : Option Signal),
      execs (n + 6) [.activate 0 t1 c1 s1 none, .terminate 0 sg,
        .activate 0 t2 c2 s2 none] c6ParStore = .ok (c6ParEnd t2 c2 s2))
    ∧ (∀ (t2 : Nat) (c2 : Ctx) (s2 : Option Signal),
      ((c6ForeverEnd t2 c2 s2).chips.get? 0).map (·.outputSignal) = some none
      ∧ ((c6ForeverEnd t2 c2 s2).chips.get? 0).map (·.state) = some .active
      ∧ ((c6ParEnd t2 c2 s2).chips.get? 0).map (·.outputSignal) = some none
      ∧ ((c6ParEnd t2 c2 s2).chips.get? 0).map (·.state) = some .active)
    ∧ (∀ (t1 : Nat) (c1 : Ctx) (s1 sg : Option Signal),
      ((c6ForeverTerm t1 c1 s1 sg).chips.get? 0).map (·.outputSignal)
        = some (some (sg.getD Signal.default))
      ∧ ((c6ForeverTerm t1 c1 s1 sg).chips.get? 0).map (·.state) = some .inactive)
    ∧ (∀ (t1 : Nat) (c1 : Ctx) (s1 : Option Signal),
      ((c6ForeverMid t1 c1 s1).chips.get? 0).map (·.outputSignal) = some none
      ∧ ((c6ForeverMid t1 c1 s1).chips.get? 0).map (·.state) = some .active) := by
  refine ⟨?_, ?_, ?_, ?_, ?_, ?_, ?_⟩
  · exact fun n t1 t2 c1 c2 s1 s2 sg => c6_forever_run n t1 t2 c1 c2 s1 s2 sg
  · exact fun n t1 c1 s1 sg => c6_forever_term n t1 c1 s1 sg
  · exact fun n t1 c1 s1 => c6_forever_mid n t1 c1 s1
  · exact fun n t1 t2 c1 c2 s1 s2 sg => c6_par_run n t1 t2 c1 c2 s1 s2 sg
  · exact fun t2 c2 s2 => ⟨rfl, rfl, rfl, rfl⟩
  · exact fun t1 c1 s1 sg => ⟨rfl, rfl⟩
  · exact fun t1 c1 s1 => ⟨rfl, rfl⟩

/-- C6 counterexample.  A `Transitory` chip terminates itself inside its
own `_onActivate`, so after `activate()` returns it is already `inactive`
with its output signal set, and the subsequent external `terminate()`
throws `InvalidStateError` (`terminate` called from state `inactive`):
the activate–terminate–activate cycle does NOT succeed for every node. -/
theorem C6_counterexample :
    chipStateOf (execs 12 [.activate 0 0 [] (some Signal.default) none]
      c6TransitoryStore) 0 = some .inactive
    ∧ chipOutOf (execs 12 [.activate 0 0 [] (some Signal.default) none]
      c6TransitoryStore) 0 = some (some { name := "t" })
    ∧ execs 12 [.activate 0 0 [] (some Signal.default) none, .terminate 0 none]
      c6TransitoryStore = .error (.invalidState "terminate" .inactive) :=
  ⟨rfl, rfl, rfl⟩

end Booyah
